import Mathlib

/-!
# Dashboard client (`static/script.js`)

A shallow embedding of the dashboard script: the module-level alert list, the
parts of the page the script reads and writes, and the script's functions as
functions on that state.

Modelling conventions.

* Objects from the backend have the shape of the data model. A field on which
  the script calls a method (`risk.toLowerCase()`, `details.map(..)`,
  `messages_analyzed.toLocaleString()`) is an `Option`: `none` stands for a
  field that is absent or `null`, where the call throws a `TypeError`. The
  other fields are only printed and are carried as the value printed.
* A function that can throw returns a `Completion`: the page as the run left
  it, tagged with the way the run ended.
* The elements the script looks up (`#riskFilter`, `.alerts-container`, the
  stat cards, the metrics, the badge, the refresh button) exist on the page.
* `toLowerCase` folds the letters `A` to `Z`, as `String.toLower` does.
* The badge count is a JavaScript number, a double: `JsNumber` holds the
  integers that are doubles, the infinities and `NaN`; `parseInt`, `+` and the
  conversion to a string round and print as `ECMAScript` defines them (an
  integer beyond `2 ^ 53` rounds to the nearest double, a number from
  `10 ^ 21` on prints with an exponent). `parseInt` rounds the exact value of
  the digits it reads.
* A handler or an `async` function runs to its end without another handler
  running between its steps. The timers of a toast are not part of the state:
  a toast is recorded when it is appended to the document.
-/

namespace Dashboard

/-! ## Data received from the backend -/

/-- Alert object as the backend delivers it, over the push channel or in the
`/api/alerts` array. -/
structure Alert where
  id : String
  platform : Option String
  username : String
  timestamp : String
  risk : Option String
  details : Option (List String)
deriving DecidableEq, Repr

/-- Object of `/api/stats`; `Num` is the type of JavaScript numbers. -/
structure Stats (Num : Type) where
  messages_analyzed : Option Num
  sellers_detected : Option Num
  accounts_blocked : Option Num
  real_time_accuracy : Num

/-- Object of `/api/model_health`. -/
structure ModelHealth (Num : Type) where
  precision : Num
  «recall» : Num
  f1_score : Num
  last_retrain : String
  version : String
  status : Option String

/-- The operations on JavaScript numbers that the display routines use. Their
results depend on floating point arithmetic and on the locale, so they are
parameters of the model. -/
structure NumOps (Num : Type) where
  toLocaleString : Num → String
  toText : Num → String
  times100 : Num → Num

/-! ## The page -/

/-- A `div` created by the script: its class attribute and its markup. -/
structure Element where
  className : String
  innerHTML : String
deriving DecidableEq, Repr

/-- The element `.notification-badge .badge`. -/
structure Badge where
  textContent : String
  display : String
deriving DecidableEq, Repr

/-- Text of the four `.stat-card .stat-value` elements. -/
structure StatCards where
  value1 : String
  value2 : String
  value3 : String
  value4 : String
deriving DecidableEq, Repr

/-- The model-health panel: three metrics (text and bar width), two info
items and the status badge. -/
structure HealthPanel where
  metricValue1 : String
  metricFill1 : String
  metricValue2 : String
  metricFill2 : String
  metricValue3 : String
  metricFill3 : String
  infoValue1 : String
  infoValue2 : String
  statusText : String
  statusClass : String
deriving DecidableEq, Repr

/-- State of the script: the global `allAlerts` and the parts of the document
it reads or writes. `body` lists the toasts appended to `document.body`, oldest
first. -/
structure Page where
  allAlerts : List Alert
  riskFilter : String
  alertsContainer : List Element
  statCards : StatCards
  healthPanel : HealthPanel
  refreshBtn : String
  badge : Badge
  body : List Element
deriving DecidableEq, Repr

/-- How a synchronous run ended, with the page as it left it. -/
inductive Completion where
  | normal (page : Page)
  | throw (page : Page)
deriving DecidableEq, Repr

/-- The page a run left behind, however it ended. -/
def Completion.page : Completion → Page
  | .normal p => p
  | .throw p => p

/-- Whether the run ended with an exception. -/
def Completion.threw : Completion → Bool
  | .normal _ => false
  | .throw _ => true

/-- Sequencing of statements: the next one runs only after a normal end. -/
def Completion.andThen (c : Completion) (next : Page → Completion) : Completion :=
  match c with
  | .normal p => next p
  | .throw p => .throw p

/-! ## Rendering of alerts -/

/-- JavaScript `String.prototype.toLowerCase`: each character is folded (the
same string as `String.toLower`). -/
def toLowerCase (s : String) : String := ⟨s.data.map Char.toLower⟩

/-- Interpolation of a possibly absent field into a template literal. -/
def interpolate : Option String → String
  | some s => s
  | none => "undefined"

/-- The `detail-item` markup of one detail line (the callback of `details.map`). -/
def detailItem (detail : String) : String :=
  "<div class=\"detail-item\"><i class=\"fas fa-circle\"></i><span>" ++ detail ++ "</span></div>"

/-- The markup assigned to `alertElement.innerHTML`. -/
def alertMarkup (id platform timestamp username risk : String) (details : List String) : String :=
  "\n        <div class=\"alert-header\">\n            <div>\n                <div class=\"alert-id\">"
    ++ id ++ "</div>\n                <div class=\"alert-platform\"><i class=\"fab fa-"
    ++ toLowerCase platform ++ "\"></i> " ++ platform
    ++ "</div>\n            </div>\n            <div class=\"alert-time\">" ++ timestamp
    ++ "</div>\n        </div>\n        <div class=\"alert-content\">\n            <div class=\"alert-username\">"
    ++ username ++ "</div>\n            <div class=\"alert-details\">\n                "
    ++ String.join (details.map detailItem)
    ++ "\n            </div>\n            <div>\n                <strong>Risk:</strong> \n                <span class=\"alert-risk risk-"
    ++ toLowerCase risk ++ "\">" ++ risk
    ++ "</span>\n            </div>\n        </div>\n        <div class=\"alert-actions\">\n            <button class=\"action-btn investigate\"><i class=\"fas fa-search\"></i> Investigate</button>\n            <button class=\"action-btn dismiss\"><i class=\"fas fa-times\"></i> Dismiss</button>\n        </div>\n    "

/-- `createAlertElement(alert)`: the card of one alert, or `none` when a
method call on an absent `risk`, `platform` or `details` throws. -/
def createAlertElement (alert : Alert) : Option Element :=
  match alert.risk with
  | none => none
  | some risk =>
    match alert.platform with
    | none => none
    | some platform =>
      match alert.details with
      | none => none
      | some details =>
        some { className := "alert-card " ++ toLowerCase risk
               innerHTML := alertMarkup alert.id platform alert.timestamp alert.username risk details }

/-- The empty-state `div` that the markup assigned at line 93 creates. -/
def noAlerts : Element :=
  { className := "no-alerts"
    innerHTML := "<i class=\"fas fa-check-circle\"></i><p>No alerts to display. System is clear.</p>" }

/-- `allAlerts.filter(alert => alert.risk.toLowerCase() === filter)`: `none`
when the callback throws on an alert without `risk`. -/
def filterByRisk (filter : String) : List Alert → Option (List Alert)
  | [] => some []
  | alert :: rest =>
    match alert.risk with
    | none => none
    | some risk =>
      match filterByRisk filter rest with
      | none => none
      | some kept => some (if toLowerCase risk = filter then alert :: kept else kept)

/-- The `forEach` of `renderAlerts`: each card is appended as soon as it is
created; an exception leaves the cards appended so far. -/
def appendAlertElements (page : Page) : List Alert → Completion
  | [] => .normal page
  | alert :: rest =>
    match createAlertElement alert with
    | none => .throw page
    | some alertElement =>
      appendAlertElements { page with alertsContainer := page.alertsContainer ++ [alertElement] } rest

/-- The function `renderAlerts(filter = 'all')`. -/
def renderAlerts (page : Page) (filter : String := "all") : Completion :=
  let page := { page with alertsContainer := [] }
  let filteredAlerts := if filter = "all" then some page.allAlerts else filterByRisk filter page.allAlerts
  match filteredAlerts with
  | none => .throw page
  | some filteredAlerts =>
    if filteredAlerts.length = 0 then
      .normal { page with alertsContainer := [noAlerts] }
    else
      appendAlertElements page filteredAlerts

/-- The function `filterAlerts()`, the `change` listener of `#riskFilter`. -/
def filterAlerts (page : Page) : Completion :=
  renderAlerts page page.riskFilter

/-! ## Toasts and the badge -/

/-- The function `showNotification(message, type = 'info')`: the toast is
appended to `document.body`. -/
def showNotification (page : Page) (message : String) (type : String := "info") : Page :=
  { page with
    body := page.body ++
      [{ className := "notification " ++ type
         innerHTML := "<i class=\"fas fa-info-circle\"></i><span>" ++ message ++ "</span>" }] }

/-- White space that `parseInt` skips (`StrWhiteSpaceChar`). -/
def isStrWhiteSpace (c : Char) : Bool :=
  c.toNat ∈ [0x9, 0xA, 0xB, 0xC, 0xD, 0x20, 0xA0, 0x1680, 0x2028, 0x2029, 0x202F, 0x205F, 0x3000, 0xFEFF]
    || (0x2000 ≤ c.toNat && c.toNat ≤ 0x200A)

/-- Value of a character as a digit of radix `R`, if it is one. -/
def radixDigit (R : Nat) (c : Char) : Option Nat :=
  let v :=
    if 48 ≤ c.toNat ∧ c.toNat ≤ 57 then some (c.toNat - 48)
    else if 97 ≤ c.toNat ∧ c.toNat ≤ 122 then some (c.toNat - 87)
    else if 65 ≤ c.toNat ∧ c.toNat ≤ 90 then some (c.toNat - 55)
    else none
  v.filter (fun d => d < R)

/-- The radix that `parseInt` settles on when it is given none, and the text
left to read: sixteen after a leading `0x` or `0X`, ten otherwise. -/
def stripPrefix (S : List Char) : Nat × List Char :=
  match S with
  | '0' :: 'x' :: rest => (16, rest)
  | '0' :: 'X' :: rest => (16, rest)
  | _ => (10, S)

/-- A JavaScript number that a computation on integers reaches: an integer
that a double holds, an infinity, or `NaN` (a zero has no sign here: both
zeros are falsy and print as `0`). -/
inductive JsNumber where
  | finite (value : Int)
  | infinity (negative : Bool)
  | nan
deriving DecidableEq, Repr

/-- The number of low bits of `n` that a double cannot keep: the least `s`
with `n / 2 ^ s < 2 ^ 53`. -/
def excessBits : Nat → Nat → Nat
  | 0, _ => 0
  | fuel + 1, n => if n < 2 ^ 53 then 0 else excessBits fuel (n / 2) + 1

/-- Rounding of a natural number to 53 significant bits, ties to the even
one: the significand and the binary exponent. -/
def roundParts (n : Nat) : Nat × Nat :=
  let shift := excessBits 2048 n
  let q := n / 2 ^ shift
  let r := n % 2 ^ shift
  let half := 2 ^ shift / 2
  (if r > half ∨ (r = half ∧ shift ≠ 0 ∧ q % 2 = 1) then q + 1 else q, shift)

/-- The natural number with 53 significant bits nearest to `n`. -/
def roundNat (n : Nat) : Nat :=
  (roundParts n).1 * 2 ^ (roundParts n).2

/-- Whether the rounded value is `2 ^ 1024` or more, beyond every double. -/
def overflows (n : Nat) : Bool :=
  decide ((roundParts n).2 > 971 ∨ ((roundParts n).2 = 971 ∧ (roundParts n).1 = 2 ^ 53))

/-- The double nearest to an integer (round to nearest, ties to even): the
number that an integer literal or the exact result of an operation denotes.
An integer of magnitude at most `2 ^ 53` is a double itself. -/
def toNumber (z : Int) : JsNumber :=
  if z.natAbs ≤ 2 ^ 53 then .finite z
  else if overflows z.natAbs then .infinity (decide (z < 0))
  else .finite (if z < 0 then -(roundNat z.natAbs : Int) else (roundNat z.natAbs : Int))

/-- Addition of two numbers (`+`). -/
def JsNumber.add : JsNumber → JsNumber → JsNumber
  | .finite a, .finite b => toNumber (a + b)
  | .finite _, .infinity s => .infinity s
  | .infinity s, .finite _ => .infinity s
  | .infinity s, .infinity t => if s = t then .infinity s else .nan
  | _, _ => .nan

/-- The comparison `count > 0`. -/
def JsNumber.isPositive : JsNumber → Bool
  | .finite z => decide (z > 0)
  | .infinity negative => !negative
  | .nan => false

/-- JavaScript `parseInt(string)` without a radix argument: white space and a
sign are skipped, then the longest run of digits is read and rounded to a
double; `NaN` when there is no digit. -/
def parseInt (string : String) : JsNumber :=
  let S := string.data.dropWhile isStrWhiteSpace
  let sign : Int := if S.head? = some '-' then -1 else 1
  let S := if S.head? = some '+' ∨ S.head? = some '-' then S.tail else S
  let (R, S) := stripPrefix S
  let Z := S.takeWhile (fun c => (radixDigit R c).isSome)
  if Z = [] then .nan
  else toNumber (sign * ((Z.foldl (fun acc c => acc * R + (radixDigit R c).getD 0) 0 : Nat) : Int))

/-- The decimal numbers `s * 10 ^ (n - k)` with `k` significant digits that
round to the double `z`, as pairs `(s, n)`. -/
def digitCandidates (z k : Nat) : List (Nat × Nat) :=
  let D := (Nat.toDigits 10 z).length
  let low := z / 10 ^ (D - k)
  [(low, D), (low + 1, D), (10 ^ (k - 1), D + 1)].filter fun c =>
    decide (10 ^ (k - 1) ≤ c.1 ∧ c.1 < 10 ^ k ∧ roundNat (c.1 * 10 ^ (c.2 - k)) = z)

/-- Distance between two natural numbers. -/
def distance (a b : Nat) : Nat := if a ≤ b then b - a else a - b

/-- Among candidates with `k` digits, the one closest to `z`, the even one of
two that are equally close. -/
def closestCandidate (z k : Nat) : List (Nat × Nat) → Option (Nat × Nat)
  | [] => none
  | c :: rest =>
    match closestCandidate z k rest with
    | none => some c
    | some d =>
      if distance (c.1 * 10 ^ (c.2 - k)) z < distance (d.1 * 10 ^ (d.2 - k)) z ∨
          (distance (c.1 * 10 ^ (c.2 - k)) z = distance (d.1 * 10 ^ (d.2 - k)) z ∧ c.1 % 2 = 0)
      then some c else some d

/-- The digits that `Number::toString` prints for a double `z`: `(s, k, n)`
with `k` as small as possible such that `s * 10 ^ (n - k)` rounds to `z`. -/
def shortestDigits (z : Nat) : Nat × Nat × Nat :=
  match (List.range 17).findSome? fun i =>
      (closestCandidate z (i + 1) (digitCandidates z (i + 1))).map fun c => (c.1, i + 1, c.2) with
  | some r => r
  | none => (z, (Nat.toDigits 10 z).length, (Nat.toDigits 10 z).length)

/-- Text of a double above `2 ^ 53`: its shortest digits, followed by zeros
below `10 ^ 21` and by an exponent from there on. -/
def largeNumberText (z : Nat) : List Char :=
  let (s, k, n) := shortestDigits z
  let digits := Nat.toDigits 10 s
  if n ≤ 21 then digits ++ List.replicate (n - k) '0'
  else if k = 1 then digits ++ ['e', '+'] ++ Nat.toDigits 10 (n - 1)
  else digits.take 1 ++ ['.'] ++ digits.drop 1 ++ ['e', '+'] ++ Nat.toDigits 10 (n - 1)

/-- Text of a double that is a natural number: its decimal digits up to
`2 ^ 53`, where the shortest digits are all of them. -/
def natText (n : Nat) : String :=
  if n ≤ 2 ^ 53 then Nat.repr n else ⟨largeNumberText n⟩

/-- Conversion of a number to a string (`badge.textContent = count`). -/
def numberToString : JsNumber → String
  | .finite z => if z < 0 then "-" ++ natText z.natAbs else natText z.natAbs
  | .infinity false => "Infinity"
  | .infinity true => "-Infinity"
  | .nan => "NaN"

/-- The value of `parseInt(badge.textContent) || 0`: `0` takes the place of
`NaN` (and of `0`). -/
def badgeCount (badge : Badge) : JsNumber :=
  match parseInt badge.textContent with
  | .nan => .finite 0
  | count => count

/-- The function `updateNotificationBadge(change)`, called with the number
that the integer `change` denotes. -/
def updateNotificationBadge (page : Page) (change : Int) : Page :=
  let count := badgeCount page.badge
  let count := count.add (toNumber change)
  { page with
    badge := { textContent := numberToString count
               display := if count.isPositive then "flex" else "none" } }

/-! ## The push handler -/

/-- The handler `socket.on('new_alert', function(newAlert) ...)`. -/
def onNewAlert (page : Page) (newAlert : Alert) : Completion :=
  let page := { page with allAlerts := newAlert :: page.allAlerts }
  let currentFilter := page.riskFilter
  (renderAlerts page currentFilter).andThen fun page =>
    let page := showNotification page
      ("New " ++ interpolate newAlert.risk ++ " risk alert from " ++ newAlert.username)
    .normal (updateNotificationBadge page 1)

/-- The page after the push events `events` were delivered in that order. -/
def deliver (page : Page) (events : List Alert) : Page :=
  events.foldl (fun page newAlert => (onNewAlert page newAlert).page) page

/-! ## Stats and model health -/

/-- The function `updateStats(stats)`: the four cards are written in turn, and
`toLocaleString()` on an absent field throws before that card is written. -/
def updateStats {Num : Type} (page : Page) (ops : NumOps Num) (stats : Stats Num) : Completion :=
  match stats.messages_analyzed with
  | none => .throw page
  | some messages_analyzed =>
    let page := { page with statCards := { page.statCards with value1 := ops.toLocaleString messages_analyzed } }
    match stats.sellers_detected with
    | none => .throw page
    | some sellers_detected =>
      let page := { page with statCards := { page.statCards with value2 := ops.toLocaleString sellers_detected } }
      match stats.accounts_blocked with
      | none => .throw page
      | some accounts_blocked =>
        let page := { page with statCards := { page.statCards with value3 := ops.toLocaleString accounts_blocked } }
        .normal { page with statCards := { page.statCards with value4 := ops.toText stats.real_time_accuracy ++ "%" } }

/-- The function `updateModelHealth(health)`: everything up to the text of the
status badge is written before `status.toLowerCase()` can throw. -/
def updateModelHealth {Num : Type} (page : Page) (ops : NumOps Num) (health : ModelHealth Num) : Completion :=
  let panel : HealthPanel :=
    { page.healthPanel with
      metricValue1 := ops.toText health.precision
      metricFill1 := ops.toText (ops.times100 health.precision) ++ "%"
      metricValue2 := ops.toText health.«recall»
      metricFill2 := ops.toText (ops.times100 health.«recall») ++ "%"
      metricValue3 := ops.toText health.f1_score
      metricFill3 := ops.toText (ops.times100 health.f1_score) ++ "%"
      infoValue1 := health.last_retrain
      infoValue2 := health.version
      statusText := health.status.getD "" }
  let page := { page with healthPanel := panel }
  match health.status with
  | none => .throw page
  | some status =>
    .normal { page with healthPanel := { page.healthPanel with statusClass := "status-badge " ++ toLowerCase status } }

/-! ## Initial load and refresh -/

/-- A settled `fetch`: `json` is the decoded body, `none` when `res.json()`
rejects. -/
structure Response (α : Type) where
  json : Option α

/-- What the three requests of one load come to; `none` is a `fetch` that
rejects. -/
structure Fetches (Num : Type) where
  alerts : Option (Response (List Alert))
  stats : Option (Response (Stats Num))
  modelHealth : Option (Response (ModelHealth Num))

/-- The `try` block of `fetchInitialData`. -/
def fetchInitialDataTry {Num : Type} (page : Page) (ops : NumOps Num) (net : Fetches Num) : Completion :=
  match net.alerts, net.stats, net.modelHealth with
  | some alertsRes, some statsRes, some modelHealthRes =>
    match alertsRes.json with
    | none => .throw page
    | some alerts =>
      let page := { page with allAlerts := alerts }
      match statsRes.json with
      | none => .throw page
      | some statsData =>
        match modelHealthRes.json with
        | none => .throw page
        | some modelHealthData =>
          ((renderAlerts page).andThen fun page => updateStats page ops statsData).andThen
            fun page => updateModelHealth page ops modelHealthData
  | _, _, _ => .throw page

/-- The function `fetchInitialData()`: the `catch` block shows the error toast. -/
def fetchInitialData {Num : Type} (page : Page) (ops : NumOps Num) (net : Fetches Num) : Page :=
  match fetchInitialDataTry page ops net with
  | .normal page => page
  | .throw page => showNotification page "Error: Could not connect to the backend." "error"

/-- The function `refreshAlerts()`: the `finally` callback runs once the load
has settled. -/
def refreshAlerts {Num : Type} (page : Page) (ops : NumOps Num) (net : Fetches Num) : Page :=
  let page := { page with refreshBtn := "<i class=\"fas fa-spinner fa-spin\"></i> Refreshing" }
  let page := fetchInitialData page ops net
  let page := { page with refreshBtn := "<i class=\"fas fa-sync-alt\"></i> Refresh" }
  showNotification page "Dashboard data refreshed."

/-! ## Vocabulary of the statements -/

/-- The alert carries the fields on which `createAlertElement` calls a method:
it is an alert of the data model. -/
def Alert.wellFormed (alert : Alert) : Bool :=
  alert.risk.isSome && alert.platform.isSome && alert.details.isSome

/-- The test that `renderAlerts(filter)` applies to an alert: every alert
passes under `'all'`, otherwise the lower-cased risk is compared with the
keyword as given. -/
def matchesFilter (filter : String) (alert : Alert) : Bool :=
  filter == "all" || alert.risk.map toLowerCase == some filter

/-- Comparison of an alert's risk with a keyword in the words of the
specification: equal when compared case-insensitively. -/
def riskEqualsIgnoringCase (keyword : String) (alert : Alert) : Bool :=
  alert.risk.map toLowerCase == some (toLowerCase keyword)

/-- Matching of an alert and a filter value in the words of the
specification: every alert matches "all", and a keyword matches the alerts
whose risk equals it when compared case-insensitively. -/
def matchesIgnoringCase (filter : String) (alert : Alert) : Bool :=
  filter == "all" || riskEqualsIgnoringCase filter alert

/-- The alert cards among the children of the container: all of them but the
empty-state placeholder. -/
def alertCards (container : List Element) : List Element :=
  container.filter (fun e => e != noAlerts)

/-- The decimal text of an integer: what a badge that displays the integer
shows. -/
def decimalText (m : Int) : String :=
  if m < 0 then "-" ++ Nat.repr m.natAbs else Nat.repr m.natAbs

/-- The character is one of `0` to `9`. -/
def isDecimalDigit (c : Char) : Bool := decide (48 ≤ c.toNat ∧ c.toNat ≤ 57)

/-- The number that a run of decimal digits denotes. -/
def decimalValue (Z : List Char) : Nat :=
  Z.foldl (fun acc c => acc * 10 + (radixDigit 10 c).getD 0) 0

/-- The text starts with the integer written by `sign` and `digits`: it is
white space, an optional sign, the decimal digits `digits` (all that stand
there, possibly none) and a rest that is not read. A text whose digits are the
hexadecimal prefix `0x` is left out. -/
def StartsWithInteger (text : String) (sign digits : List Char) : Prop :=
  ∃ ws rest : List Char,
    text = ⟨ws ++ (sign ++ (digits ++ rest))⟩ ∧
    (∀ c ∈ ws, isStrWhiteSpace c = true) ∧
    (sign = [] ∨ sign = ['+'] ∨ sign = ['-']) ∧
    (∀ c ∈ digits, isDecimalDigit c = true) ∧
    (∀ c, rest.head? = some c → isDecimalDigit c = false) ∧
    (sign = [] → digits = [] →
      ∀ c, rest.head? = some c → isStrWhiteSpace c = false ∧ c ≠ '+' ∧ c ≠ '-') ∧
    ¬ (digits = ['0'] ∧ (rest.head? = some 'x' ∨ rest.head? = some 'X'))

/-- The integer written by a sign and a run of decimal digits, `0` when there
is no digit. -/
def writtenInteger (sign digits : List Char) : Int :=
  if digits = [] then 0 else (if sign = ['-'] then -1 else 1) * (decimalValue digits : Int)

/-- A page on which nothing has been displayed yet. -/
def blankPage : Page :=
  { allAlerts := []
    riskFilter := "all"
    alertsContainer := []
    statCards := { value1 := "", value2 := "", value3 := "", value4 := "" }
    healthPanel :=
      { metricValue1 := "", metricFill1 := "", metricValue2 := "", metricFill2 := ""
        metricValue3 := "", metricFill3 := "", infoValue1 := "", infoValue2 := ""
        statusText := "", statusClass := "" }
    refreshBtn := "<i class=\"fas fa-sync-alt\"></i> Refresh"
    badge := { textContent := "0", display := "none" }
    body := [] }

/-- The alert `A1` of the scenarios of the specification. -/
def alertA1 : Alert :=
  { id := "A1", platform := some "twitter", username := "u1", timestamp := "t1"
    risk := some "High", details := some ["d1"] }

/-- The alert `A2` of the scenarios of the specification. -/
def alertA2 : Alert :=
  { id := "A2", platform := some "telegram", username := "u2", timestamp := "t2"
    risk := some "Low", details := some ["d2"] }

/-- A third alert, of risk "Low". -/
def alertA3 : Alert :=
  { id := "A3", platform := some "whatsapp", username := "u3", timestamp := "t3"
    risk := some "Low", details := some ["d3"] }

/-- A page whose badge shows `2 ^ 53 + 1`. -/
def bigBadgePage : Page :=
  { blankPage with badge := { textContent := "9007199254740993", display := "flex" } }

/-- The blank page with an alert list and a selected filter value. -/
def pageWith (alerts : List Alert) (riskFilter : String) : Page :=
  { blankPage with allAlerts := alerts, riskFilter := riskFilter }

/-- The toast that the `catch` block of `fetchInitialData` shows. -/
def errorToast : Element :=
  { className := "notification error"
    innerHTML := "<i class=\"fas fa-info-circle\"></i><span>Error: Could not connect to the backend.</span>" }

/-- The toast that the `finally` callback of `refreshAlerts` shows. -/
def refreshedToast : Element :=
  { className := "notification info"
    innerHTML := "<i class=\"fas fa-info-circle\"></i><span>Dashboard data refreshed.</span>" }

/-- Number operations over natural numbers, for the concrete runs below. -/
def exampleOps : NumOps Nat :=
  { toLocaleString := Nat.repr, toText := Nat.repr, times100 := fun n => n * 100 }

/-- A stats payload with all its fields. -/
def exampleStats : Stats Nat :=
  { messages_analyzed := some 100, sellers_detected := some 5, accounts_blocked := some 2
    real_time_accuracy := 97 }

/-- A model-health payload with all its fields. -/
def exampleHealth : ModelHealth Nat :=
  { precision := 1, «recall» := 1, f1_score := 1, last_retrain := "2024-01-01", version := "v1"
    status := some "OK" }

/-- A load in which the three requests resolve and decode. -/
def loadOk : Fetches Nat :=
  { alerts := some { json := some [alertA1] }
    stats := some { json := some exampleStats }
    modelHealth := some { json := some exampleHealth } }

/-- A load that fetches the two alerts `A1` and `A2`. -/
def loadTwoAlerts : Fetches Nat :=
  { loadOk with alerts := some { json := some [alertA1, alertA2] } }

/-- The page after a reload during which the filter value "high" is selected. -/
def reloadedPage : Page :=
  fetchInitialData (pageWith [] "high") exampleOps loadTwoAlerts

/-- A load in which the body of `/api/stats` does not decode. -/
def loadStatsUndecodable : Fetches Nat :=
  { loadOk with stats := some { json := none } }

/-- A load in which the stats payload lacks `accounts_blocked`. -/
def loadStatsIncomplete : Fetches Nat :=
  { loadOk with stats := some { json := some { exampleStats with accounts_blocked := none } } }

/-- A load in which the request for `/api/model_health` rejects. -/
def loadRejected : Fetches Nat :=
  { loadOk with modelHealth := none }

/-! ## Rendering: auxiliary facts -/

theorem toLowerCase_eq (s : String) : toLowerCase s = s.toLower := by
  simp [toLowerCase, String.toLower, String.map_eq]

theorem char_toLower_idem (c : Char) : c.toLower.toLower = c.toLower := by
  by_cases h : c.toNat ≥ 65 ∧ c.toNat ≤ 90
  · have hv : (c.val.toNat + 32).isValidChar := by
      left
      have : c.val.toNat = c.toNat := rfl
      omega
    have h1 : c.toLower = Char.ofNat (c.toNat + 32) := by
      simp [Char.toLower, h]
    have h2 : (Char.ofNat (c.toNat + 32)).toNat = c.toNat + 32 := by
      simp only [Char.ofNat, Char.ofNatAux, Char.toNat, dif_pos hv]
      simp [UInt32.toNat, BitVec.toNat_ofNatLt]
    rw [h1]
    have h3 : ¬ ((Char.ofNat (c.toNat + 32)).toNat ≥ 65 ∧
        (Char.ofNat (c.toNat + 32)).toNat ≤ 90) := by
      rw [h2]; omega
    simp only [Char.toLower]
    rw [if_neg h3]
  · simp only [Char.toLower]
    rw [if_neg h, if_neg h]

/-- Lower-casing a lower-cased string changes nothing. -/
theorem toLowerCase_idem (s : String) : toLowerCase (toLowerCase s) = toLowerCase s := by
  simp only [toLowerCase, List.map_map]
  congr 1
  apply List.map_congr_left
  intro c _
  exact char_toLower_idem c

theorem filterByRisk_eq (filter : String) (L : List Alert)
    (h : ∀ a ∈ L, a.wellFormed = true) :
    filterByRisk filter L = some (L.filter (fun a => a.risk.map toLowerCase == some filter)) := by
  induction L with
  | nil => rfl
  | cons a rest ih =>
    have ha := h a (List.mem_cons_self _ _)
    have hr := ih (fun b hb => h b (List.mem_cons_of_mem _ hb))
    cases hrisk : a.risk with
    | none => simp [Alert.wellFormed, hrisk] at ha
    | some r =>
      by_cases hm : toLowerCase r = filter <;>
        simp [filterByRisk, hrisk, hr, List.filter_cons, hm]

theorem createAlertElement_of_wellFormed (a : Alert) (h : a.wellFormed = true) :
    ∃ e, createAlertElement a = some e ∧ e ≠ noAlerts := by
  cases hr : a.risk with
  | none => simp [Alert.wellFormed, hr] at h
  | some r =>
    cases hp : a.platform with
    | none => simp [Alert.wellFormed, hp] at h
    | some p =>
      cases hd : a.details with
      | none => simp [Alert.wellFormed, hd] at h
      | some d =>
        refine ⟨_, by simp [createAlertElement, hr, hp, hd]; rfl, ?_⟩
        intro hne
        have hc := congrArg (fun e => e.className.data) hne
        simp [noAlerts] at hc

theorem createAlertElement_ne_noAlerts (a : Alert) (e : Element)
    (h : createAlertElement a = some e) : e ≠ noAlerts := by
  intro hne
  subst hne
  cases hr : a.risk with
  | none => simp [createAlertElement, hr] at h
  | some r =>
    cases hp : a.platform with
    | none => simp [createAlertElement, hr, hp] at h
    | some p =>
      cases hd : a.details with
      | none => simp [createAlertElement, hr, hp, hd] at h
      | some d =>
        simp only [createAlertElement, hr, hp, hd, Option.some.injEq] at h
        have hc := congrArg (fun e => e.className.data) h
        simp [noAlerts] at hc

theorem map_createAlertElement (M : List Alert) (h : ∀ a ∈ M, a.wellFormed = true) :
    (M.filterMap createAlertElement).map some = M.map createAlertElement := by
  induction M with
  | nil => rfl
  | cons a rest ih =>
    obtain ⟨e, he, _⟩ := createAlertElement_of_wellFormed a (h a (List.mem_cons_self _ _))
    have hr := ih (fun b hb => h b (List.mem_cons_of_mem _ hb))
    simp [List.filterMap_cons, he, hr]

theorem alertCards_filterMap (M : List Alert) :
    alertCards (M.filterMap createAlertElement) = M.filterMap createAlertElement := by
  unfold alertCards
  rw [List.filter_eq_self]
  intro e he
  obtain ⟨a, _, ha⟩ := List.mem_filterMap.mp he
  simpa using createAlertElement_ne_noAlerts a e ha

theorem appendAlertElements_of_wellFormed (M : List Alert) (page : Page)
    (h : ∀ a ∈ M, a.wellFormed = true) :
    appendAlertElements page M =
      .normal { page with alertsContainer := page.alertsContainer ++ M.filterMap createAlertElement } := by
  induction M generalizing page with
  | nil => simp [appendAlertElements]
  | cons a rest ih =>
    obtain ⟨e, he, _⟩ := createAlertElement_of_wellFormed a (h a (List.mem_cons_self _ _))
    have hr := ih { page with alertsContainer := page.alertsContainer ++ [e] }
      (fun b hb => h b (List.mem_cons_of_mem _ hb))
    simp [appendAlertElements, he, hr, List.filterMap_cons]

theorem filter_matchesFilter_all (L : List Alert) : L.filter (matchesFilter "all") = L := by
  simp [matchesFilter]

theorem filter_matchesFilter_keyword (k : String) (hk : k ≠ "all") (L : List Alert) :
    L.filter (matchesFilter k) = L.filter (fun a => a.risk.map toLowerCase == some k) := by
  congr 1; funext a; simp [matchesFilter, hk]

/-- What `renderAlerts(filter)` does on a list of well-formed alerts: it
returns, and the container holds the placeholder when no alert passes the
test, the cards of the passing alerts otherwise. -/
theorem renderAlerts_of_wellFormed (page : Page) (filter : String)
    (h : ∀ a ∈ page.allAlerts, a.wellFormed = true) :
    renderAlerts page filter =
      .normal { page with
        alertsContainer :=
          if page.allAlerts.filter (matchesFilter filter) = [] then [noAlerts]
          else (page.allAlerts.filter (matchesFilter filter)).filterMap createAlertElement } := by
  have hsub : ∀ a ∈ page.allAlerts.filter (matchesFilter filter), a.wellFormed = true :=
    fun a ha => h a (List.mem_filter.mp ha).1
  by_cases hall : filter = "all"
  · subst hall
    rw [filter_matchesFilter_all] at hsub ⊢
    by_cases hnil : page.allAlerts = []
    · simp [renderAlerts, hnil]
    · have hlen : page.allAlerts.length ≠ 0 := by simpa using hnil
      simp [renderAlerts, hnil, hlen, appendAlertElements_of_wellFormed _ _ hsub]
  · rw [filter_matchesFilter_keyword filter hall] at hsub ⊢
    by_cases hnil : page.allAlerts.filter (fun a => a.risk.map toLowerCase == some filter) = []
    · simp [renderAlerts, hall, filterByRisk_eq filter _ h, hnil]
    · have hlen : (page.allAlerts.filter
          (fun a => a.risk.map toLowerCase == some filter)).length ≠ 0 := by simpa using hnil
      simp only [renderAlerts, hall, if_false, filterByRisk_eq filter _ h, hlen, hnil]
      rw [appendAlertElements_of_wellFormed _ _ hsub]
      simp

/-! ## Numbers and their text: auxiliary facts -/

theorem digitChar_isDecimalDigit (d : Nat) (h : d < 10) :
    isDecimalDigit (Nat.digitChar d) = true ∧ radixDigit 10 (Nat.digitChar d) = some d := by
  interval_cases d <;> decide

theorem toDigitsCore_append (fuel n : Nat) (ds : List Char) :
    Nat.toDigitsCore 10 fuel n ds = Nat.toDigitsCore 10 fuel n [] ++ ds := by
  induction fuel generalizing n ds with
  | zero => simp [Nat.toDigitsCore]
  | succ fuel ih =>
    simp only [Nat.toDigitsCore]
    split
    · simp
    · rw [ih (n / 10) (_ :: ds), ih (n / 10) [_]]; simp

theorem toDigitsCore_spec (fuel n : Nat) (h : n < fuel) :
    (∀ c ∈ Nat.toDigitsCore 10 fuel n [], isDecimalDigit c = true) ∧
    Nat.toDigitsCore 10 fuel n [] ≠ [] ∧
    decimalValue (Nat.toDigitsCore 10 fuel n []) = n := by
  induction fuel generalizing n with
  | zero => omega
  | succ fuel ih =>
    have hd := digitChar_isDecimalDigit (n % 10) (Nat.mod_lt _ (by decide))
    simp only [Nat.toDigitsCore]
    split
    · next h0 =>
      refine ⟨by simpa using hd.1, by simp, ?_⟩
      simp [decimalValue, hd.2]; omega
    · next h0 =>
      have hlt : n / 10 < fuel := by omega
      obtain ⟨h1, h2, h3⟩ := ih (n / 10) hlt
      rw [toDigitsCore_append]
      refine ⟨?_, by simp, ?_⟩
      · intro c hc
        rcases List.mem_append.mp hc with hc | hc
        · exact h1 c hc
        · simp at hc; rw [hc]; exact hd.1
      · unfold decimalValue at h3 ⊢
        rw [List.foldl_append, h3]
        simp [hd.2]; omega

theorem radixDigit_of_decimal (c : Char) (h : isDecimalDigit c = true) :
    (radixDigit 10 c).isSome = true ∧ isStrWhiteSpace c = false ∧ c ≠ '-' ∧ c ≠ '+' ∧
      c ≠ 'x' ∧ c ≠ 'X' := by
  simp only [isDecimalDigit, decide_eq_true_eq] at h
  refine ⟨?_, ?_, ?_, ?_, ?_, ?_⟩
  · have : c.toNat - 48 < 10 := by omega
    simp [radixDigit, h, Option.filter, this]
  · simp only [isStrWhiteSpace, Bool.or_eq_false_iff, decide_eq_false_iff_not,
      Bool.and_eq_false_iff]
    constructor
    · simp only [List.mem_cons, List.mem_singleton, List.not_mem_nil, or_false]; omega
    · omega
  all_goals (intro hc; subst hc; revert h; decide)

theorem stripPrefix_of_decimal (S : List Char) (h : ∀ c ∈ S, isDecimalDigit c = true) :
    stripPrefix S = (10, S) := by
  unfold stripPrefix
  split
  · exact absurd rfl (radixDigit_of_decimal 'x' (h _ (by simp))).2.2.2.2.1
  · exact absurd rfl (radixDigit_of_decimal 'X' (h _ (by simp))).2.2.2.2.2
  · rfl

theorem parseInt_of_decimal (ds : List Char) (hne : ds ≠ [])
    (h : ∀ c ∈ ds, isDecimalDigit c = true) :
    parseInt ⟨ds⟩ = toNumber (decimalValue ds) ∧
      parseInt ⟨'-' :: ds⟩ = toNumber (-(decimalValue ds : Int)) := by
  obtain ⟨c, rest, rfl⟩ := List.exists_cons_of_ne_nil hne
  have hc := radixDigit_of_decimal c (h c (by simp))
  have htake : List.takeWhile (fun c => (radixDigit 10 c).isSome) (c :: rest) = c :: rest := by
    rw [List.takeWhile_eq_self_iff]
    intro d hd
    exact (radixDigit_of_decimal d (h d hd)).1
  have hminus : isStrWhiteSpace '-' = false := by decide
  constructor
  · simp [parseInt, List.dropWhile, hc.2.1, hc.2.2.1, hc.2.2.2.1, stripPrefix_of_decimal _ h,
      htake, decimalValue]
  · simp [parseInt, List.dropWhile, hminus, stripPrefix_of_decimal _ h, htake, decimalValue]

theorem parseInt_repr (n : Nat) :
    parseInt (Nat.repr n) = toNumber (n : Int) ∧
      parseInt ("-" ++ Nat.repr n) = toNumber (-(n : Int)) := by
  obtain ⟨h1, h2, h3⟩ := toDigitsCore_spec (n + 1) n (Nat.lt_succ_self n)
  have h := parseInt_of_decimal _ h2 h1
  rw [h3] at h
  exact h

theorem radixDigit_ten_isSome (c : Char) : (radixDigit 10 c).isSome = isDecimalDigit c := by
  unfold radixDigit isDecimalDigit
  by_cases h1 : 48 ≤ c.toNat ∧ c.toNat ≤ 57
  · have : c.toNat - 48 < 10 := by omega
    simp [h1, Option.filter, this]
  · by_cases h2 : 97 ≤ c.toNat ∧ c.toNat ≤ 122
    · have : ¬ (c.toNat - 87 < 10) := by omega
      simp [h1, h2, Option.filter, this]
    · by_cases h3 : 65 ≤ c.toNat ∧ c.toNat ≤ 90
      · have : ¬ (c.toNat - 55 < 10) := by omega
        simp [h1, h2, h3, Option.filter, this]
      · simp [h1, h2, h3, Option.filter]

theorem dropWhile_append_of_all (p : Char → Bool) (ws T : List Char)
    (h : ∀ c ∈ ws, p c = true) : (ws ++ T).dropWhile p = T.dropWhile p := by
  induction ws with
  | nil => rfl
  | cons w rest ih =>
    have hw := h w (List.mem_cons_self _ _)
    simp [List.dropWhile, hw, ih (fun c hc => h c (List.mem_cons_of_mem _ hc))]

theorem dropWhile_of_head (p : Char → Bool) (T : List Char)
    (h : ∀ c, T.head? = some c → p c = false) : T.dropWhile p = T := by
  cases T with
  | nil => rfl
  | cons t rest => simp [List.dropWhile, h t rfl]

theorem takeWhile_append_of_all (p : Char → Bool) (ds rest : List Char)
    (h1 : ∀ c ∈ ds, p c = true) (h2 : ∀ c, rest.head? = some c → p c = false) :
    (ds ++ rest).takeWhile p = ds := by
  induction ds with
  | nil =>
    cases rest with
    | nil => rfl
    | cons r rs => simp [List.takeWhile, h2 r rfl]
  | cons d ds ih =>
    have hd := h1 d (List.mem_cons_self _ _)
    simp [List.takeWhile, hd, ih (fun c hc => h1 c (List.mem_cons_of_mem _ hc))]

theorem stripPrefix_decimal_run (digits rest : List Char)
    (hdigits : ∀ c ∈ digits, isDecimalDigit c = true)
    (hrest : ∀ c, rest.head? = some c → isDecimalDigit c = false)
    (hhex : ¬ (digits = ['0'] ∧ (rest.head? = some 'x' ∨ rest.head? = some 'X'))) :
    stripPrefix (digits ++ rest) = (10, digits ++ rest) := by
  have hx : isDecimalDigit 'x' = false := by decide
  have hX : isDecimalDigit 'X' = false := by decide
  have h0 : isDecimalDigit '0' = true := by decide
  unfold stripPrefix
  split
  · next r heq =>
    exfalso
    cases digits with
    | nil =>
      simp only [List.nil_append] at heq
      have := hrest '0' (by rw [heq]; rfl)
      rw [h0] at this; exact absurd this (by decide)
    | cons d ds =>
      cases ds with
      | nil =>
        simp only [List.cons_append, List.nil_append, List.cons.injEq] at heq
        apply hhex
        refine ⟨by rw [heq.1], Or.inl ?_⟩
        rw [heq.2]; rfl
      | cons d2 ds2 =>
        simp only [List.cons_append, List.cons.injEq] at heq
        have := hdigits d2 (by simp)
        rw [heq.2.1, hx] at this; exact absurd this (by decide)
  · next r heq =>
    exfalso
    cases digits with
    | nil =>
      simp only [List.nil_append] at heq
      have := hrest '0' (by rw [heq]; rfl)
      rw [h0] at this; exact absurd this (by decide)
    | cons d ds =>
      cases ds with
      | nil =>
        simp only [List.cons_append, List.nil_append, List.cons.injEq] at heq
        apply hhex
        refine ⟨by rw [heq.1], Or.inr ?_⟩
        rw [heq.2]; rfl
      | cons d2 ds2 =>
        simp only [List.cons_append, List.cons.injEq] at heq
        have := hdigits d2 (by simp)
        rw [heq.2.1, hX] at this; exact absurd this (by decide)
  · rfl


/-- What `parseInt` reads in a text made of white space, an optional sign, a
run of decimal digits and a rest that does not go on with a digit: the double
nearest to the signed value of the digits, `NaN` when there is no digit. -/
theorem parseInt_leading (ws sign digits rest : List Char)
    (hws : ∀ c ∈ ws, isStrWhiteSpace c = true)
    (hsign : sign = [] ∨ sign = ['+'] ∨ sign = ['-'])
    (hdigits : ∀ c ∈ digits, isDecimalDigit c = true)
    (hrest : ∀ c, rest.head? = some c → isDecimalDigit c = false)
    (hstart : sign = [] → digits = [] →
      ∀ c, rest.head? = some c → isStrWhiteSpace c = false ∧ c ≠ '+' ∧ c ≠ '-')
    (hhex : ¬ (digits = ['0'] ∧ (rest.head? = some 'x' ∨ rest.head? = some 'X'))) :
    parseInt ⟨ws ++ (sign ++ (digits ++ rest))⟩ =
      if digits = [] then .nan
      else toNumber ((if sign = ['-'] then -1 else 1) * (decimalValue digits : Int)) := by
  have hstrip := stripPrefix_decimal_run digits rest hdigits hrest hhex
  have htake : (digits ++ rest).takeWhile (fun c => (radixDigit 10 c).isSome) = digits :=
    takeWhile_append_of_all _ _ _
      (by intro c hc; rw [radixDigit_ten_isSome]; exact hdigits c hc)
      (by intro c hc; rw [radixDigit_ten_isSome]; exact hrest c hc)
  have hplain : ∀ c, (digits ++ rest).head? = some c → sign = [] →
      isStrWhiteSpace c = false ∧ c ≠ '+' ∧ c ≠ '-' := by
    intro c hc hs
    cases digits with
    | nil => exact hstart hs rfl c (by simpa using hc)
    | cons d ds =>
      simp only [List.cons_append, List.head?_cons, Option.some.injEq] at hc
      subst hc
      have hd := radixDigit_of_decimal d (hdigits d (by simp))
      exact ⟨hd.2.1, hd.2.2.2.1, hd.2.2.1⟩
  have hdrop : (ws ++ (sign ++ (digits ++ rest))).dropWhile isStrWhiteSpace =
      sign ++ (digits ++ rest) := by
    rw [dropWhile_append_of_all _ _ _ hws]
    apply dropWhile_of_head
    intro c hc
    rcases hsign with hs | hs | hs
    · subst hs
      exact (hplain c (by simpa using hc) rfl).1
    · subst hs
      simp only [List.cons_append, List.nil_append, List.head?_cons, Option.some.injEq] at hc
      subst hc; decide
    · subst hs
      simp only [List.cons_append, List.nil_append, List.head?_cons, Option.some.injEq] at hc
      subst hc; decide
  unfold parseInt
  simp only [hdrop]
  rcases hsign with hs | hs | hs
  · subst hs
    have h1 : (digits ++ rest).head? ≠ some '-' := by
      intro h; exact (hplain _ h rfl).2.2 rfl
    have h2 : (digits ++ rest).head? ≠ some '+' := by
      intro h; exact (hplain _ h rfl).2.1 rfl
    simp only [List.nil_append, h1, h2, or_self, if_false, hstrip, htake]
    split <;> simp [decimalValue]
  · subst hs
    simp [hstrip, htake, decimalValue]
  · subst hs
    simp [hstrip, htake, decimalValue]

/-- Reading the decimal text of an integer gives the double nearest to it. -/
theorem parseInt_decimalText (m : Int) : parseInt (decimalText m) = toNumber m := by
  unfold decimalText
  split
  · next hneg =>
    rw [(parseInt_repr m.natAbs).2]
    congr 1; omega
  · next hpos =>
    rw [(parseInt_repr m.natAbs).1]
    congr 1; omega

/-- An integer of magnitude at most `2 ^ 53` is a double. -/
theorem toNumber_of_safe (z : Int) (h : z.natAbs ≤ 2 ^ 53) : toNumber z = .finite z := by
  unfold toNumber
  rw [if_pos h]

/-- Such a double prints as the decimal text of the integer. -/
theorem numberToString_of_safe (z : Int) (h : z.natAbs ≤ 2 ^ 53) :
    numberToString (.finite z) = decimalText z := by
  simp only [numberToString, natText, decimalText, h, if_true]

theorem badgeCount_decimalText (m : Int) (h : m.natAbs ≤ 2 ^ 53) (display : String) :
    badgeCount { textContent := decimalText m, display := display } = .finite m := by
  simp [badgeCount, parseInt_decimalText, toNumber_of_safe m h]

/-- One call on a badge whose count, the amount and their sum are at most
`2 ^ 53` in magnitude. -/
theorem updateNotificationBadge_of_safe (page : Page) (n d : Int)
    (hn : badgeCount page.badge = .finite n) (hd : d.natAbs ≤ 2 ^ 53)
    (hsum : (n + d).natAbs ≤ 2 ^ 53) :
    updateNotificationBadge page d =
      { page with
        badge := { textContent := decimalText (n + d)
                   display := if n + d > 0 then "flex" else "none" } } := by
  simp [updateNotificationBadge, hn, JsNumber.add, toNumber_of_safe d hd,
    toNumber_of_safe (n + d) hsum, numberToString_of_safe (n + d) hsum, JsNumber.isPositive]

theorem badgeCount_updateNotificationBadge (page : Page) (n d : Int)
    (hn : badgeCount page.badge = .finite n) (hd : d.natAbs ≤ 2 ^ 53)
    (hsum : (n + d).natAbs ≤ 2 ^ 53) :
    badgeCount (updateNotificationBadge page d).badge = .finite (n + d) := by
  rw [updateNotificationBadge_of_safe page n d hn hd hsum]
  exact badgeCount_decimalText (n + d) hsum _

/-! ## Rendering: the filter keyword, the placeholder, the full list -/

/-- C1, as stated, fails: the alert `A1` has risk "High", which equals the
keywords "High" and "HIGH" when compared case-insensitively, yet
`renderAlerts("High")` and `renderAlerts("HIGH")` display the placeholder and
no card, because only the alert's risk is lower-cased. -/
theorem renderAlerts_keyword_not_lowercased :
    "High" ≠ "all" ∧ alertA1.wellFormed = true ∧
    riskEqualsIgnoringCase "High" alertA1 = true ∧
    riskEqualsIgnoringCase "HIGH" alertA1 = true ∧
    renderAlerts (pageWith [alertA1] "all") "High" =
      .normal { pageWith [alertA1] "all" with alertsContainer := [noAlerts] } ∧
    renderAlerts (pageWith [alertA1] "all") "HIGH" =
      .normal { pageWith [alertA1] "all" with alertsContainer := [noAlerts] } ∧
    (alertCards
        (renderAlerts (pageWith [alertA1] "all") "High").page.alertsContainer).map some
      ≠ ([alertA1].filter (riskEqualsIgnoringCase "High")).map createAlertElement := by
  decide

/-- C1, amended: for a list of well-formed alerts and a keyword `k` other than
"all", `renderAlerts(k)` returns and the cards it displays are those of the
alerts whose lower-cased risk equals `k` as given, one card per such alert, in
the order of the list. When `k` is itself in lower case these are the alerts
whose risk equals `k` case-insensitively; when it is not, no alert passes and
the placeholder is displayed. -/
theorem renderAlerts_keyword (page : Page) (k : String) (hk : k ≠ "all")
    (hwf : ∀ a ∈ page.allAlerts, a.wellFormed = true) :
    ∃ container, renderAlerts page k = .normal { page with alertsContainer := container } ∧
      (alertCards container).map some =
        (page.allAlerts.filter (fun a => a.risk.map toLowerCase == some k)).map createAlertElement ∧
      (toLowerCase k = k →
        (alertCards container).map some =
          (page.allAlerts.filter (riskEqualsIgnoringCase k)).map createAlertElement) ∧
      (toLowerCase k ≠ k → container = [noAlerts]) := by
  have hsub : ∀ a ∈ page.allAlerts.filter (fun a => a.risk.map toLowerCase == some k),
      a.wellFormed = true := fun a ha => hwf a (List.mem_filter.mp ha).1
  have hcards : (alertCards
      (if page.allAlerts.filter (fun a => a.risk.map toLowerCase == some k) = [] then [noAlerts]
       else (page.allAlerts.filter
          (fun a => a.risk.map toLowerCase == some k)).filterMap createAlertElement)).map some =
      (page.allAlerts.filter (fun a => a.risk.map toLowerCase == some k)).map createAlertElement := by
    split
    · next hnil => rw [hnil]; simp [alertCards]
    · rw [alertCards_filterMap, map_createAlertElement _ hsub]
  refine ⟨_, ?_, hcards, ?_, ?_⟩
  · rw [renderAlerts_of_wellFormed page k hwf, filter_matchesFilter_keyword k hk]
  · intro hlow
    rw [hcards]
    unfold riskEqualsIgnoringCase
    rw [hlow]
  · intro hup
    have hnil : page.allAlerts.filter (fun a => a.risk.map toLowerCase == some k) = [] := by
      rw [List.filter_eq_nil_iff]
      intro a _ hmatch
      apply hup
      cases hr : a.risk with
      | none => simp [hr] at hmatch
      | some r =>
        simp only [hr, Option.map_some', beq_iff_eq, Option.some.injEq] at hmatch
        rw [← hmatch, toLowerCase_idem]
    rw [if_pos hnil]

theorem renderAlerts_keyword_witness :
    "high" ≠ "all" ∧
    (∀ a ∈ (pageWith [alertA2, alertA1] "all").allAlerts,
      a.wellFormed = true) ∧
    ∃ container, renderAlerts (pageWith [alertA2, alertA1] "all") "high" =
        .normal { pageWith [alertA2, alertA1] "all" with
          alertsContainer := container } ∧
      (alertCards container).map some =
        ((pageWith [alertA2, alertA1] "all").allAlerts.filter
          (fun a => a.risk.map toLowerCase == some "high")).map createAlertElement ∧
      (toLowerCase "high" = "high" →
        (alertCards container).map some =
          ((pageWith [alertA2, alertA1] "all").allAlerts.filter
            (riskEqualsIgnoringCase "high")).map createAlertElement) ∧
      (toLowerCase "high" ≠ "high" → container = [noAlerts]) :=
  ⟨by decide, by decide,
    renderAlerts_keyword (pageWith [alertA2, alertA1] "all") "high"
      (by decide) (by decide)⟩

/-- C2, as stated, fails: the alert `A1` has risk "High", which matches the
filter value "High" when compared case-insensitively, yet `renderAlerts("High")`
over `[A1]` displays the placeholder. -/
theorem renderAlerts_placeholder_despite_match :
    (∃ a ∈ (pageWith [alertA1] "all").allAlerts, matchesIgnoringCase "High" a = true) ∧
    (∀ a ∈ (pageWith [alertA1] "all").allAlerts, a.wellFormed = true) ∧
    renderAlerts (pageWith [alertA1] "all") "High" =
      .normal { pageWith [alertA1] "all" with alertsContainer := [noAlerts] } ∧
    noAlerts ∈ (renderAlerts (pageWith [alertA1] "all") "High").page.alertsContainer := by
  decide

/-- C2, amended: for a list of alerts of the data model (well-formed) and any
filter value, `renderAlerts` returns, where an alert matches the filter value
when it passes the test of `renderAlerts`: the value is "all", or the alert's
lower-cased risk equals the value as given (for a value in lower case that is
equality compared case-insensitively). When no alert matches (so when the list
is empty, for any filter value, "all" included) the container holds exactly
the placeholder; when some alert matches, the placeholder is not displayed;
and the container is never left empty. -/
theorem renderAlerts_placeholder (page : Page) (filter : String)
    (hwf : ∀ a ∈ page.allAlerts, a.wellFormed = true) :
    ∃ container, renderAlerts page filter = .normal { page with alertsContainer := container } ∧
      ((∀ a ∈ page.allAlerts, matchesFilter filter a = false) → container = [noAlerts]) ∧
      (page.allAlerts = [] → container = [noAlerts]) ∧
      ((∃ a ∈ page.allAlerts, matchesFilter filter a = true) →
        noAlerts ∉ container ∧ alertCards container = container) ∧
      container ≠ [] ∧
      (toLowerCase filter = filter →
        ∀ a, matchesFilter filter a = matchesIgnoringCase filter a) := by
  have hsub : ∀ a ∈ page.allAlerts.filter (matchesFilter filter), a.wellFormed = true :=
    fun a ha => hwf a (List.mem_filter.mp ha).1
  refine ⟨_, renderAlerts_of_wellFormed page filter hwf, ?_, ?_, ?_, ?_, ?_⟩
  · intro hnone
    have hnil : page.allAlerts.filter (matchesFilter filter) = [] := by
      rw [List.filter_eq_nil_iff]
      intro a ha
      simp [hnone a ha]
    simp [hnil]
  · intro hnil
    simp [hnil]
  · rintro ⟨a, ha, hm⟩
    have hne : page.allAlerts.filter (matchesFilter filter) ≠ [] := by
      intro hnil
      have hmem : a ∈ page.allAlerts.filter (matchesFilter filter) :=
        List.mem_filter.mpr ⟨ha, hm⟩
      rw [hnil] at hmem
      exact absurd hmem (List.not_mem_nil a)
    rw [if_neg hne]
    refine ⟨?_, alertCards_filterMap _⟩
    intro hmem
    obtain ⟨b, _, hb⟩ := List.mem_filterMap.mp hmem
    exact createAlertElement_ne_noAlerts b noAlerts hb rfl
  · split
    · simp
    · next hne =>
      intro hnil
      apply hne
      have hlen := congrArg List.length (map_createAlertElement _ hsub)
      rw [hnil] at hlen
      simpa using hlen.symm
  · intro hlow a
    unfold matchesFilter matchesIgnoringCase riskEqualsIgnoringCase
    rw [hlow]

theorem renderAlerts_placeholder_witness :
    (∀ a ∈ (pageWith [alertA1] "all").allAlerts, a.wellFormed = true) ∧
    ∃ container, renderAlerts (pageWith [alertA1] "all") "low" =
        .normal { pageWith [alertA1] "all" with alertsContainer := container } ∧
      ((∀ a ∈ (pageWith [alertA1] "all").allAlerts,
          matchesFilter "low" a = false) → container = [noAlerts]) ∧
      ((pageWith [alertA1] "all").allAlerts = [] →
        container = [noAlerts]) ∧
      ((∃ a ∈ (pageWith [alertA1] "all").allAlerts,
          matchesFilter "low" a = true) →
        noAlerts ∉ container ∧ alertCards container = container) ∧
      container ≠ [] ∧
      (toLowerCase "low" = "low" →
        ∀ a, matchesFilter "low" a = matchesIgnoringCase "low" a) :=
  ⟨by decide, renderAlerts_placeholder (pageWith [alertA1] "all") "low" (by decide)⟩

/-- C3: for a non-empty list of well-formed alerts, `renderAlerts("all")`,
which is also what `renderAlerts()` runs, returns with exactly one card per
alert in the container: as many cards as alerts, the card at each position
being the one of the alert at that position, whatever the risks are. -/
theorem renderAlerts_all (page : Page) (hne : page.allAlerts ≠ [])
    (hwf : ∀ a ∈ page.allAlerts, a.wellFormed = true) :
    ∃ container, renderAlerts page "all" = .normal { page with alertsContainer := container } ∧
      renderAlerts page = renderAlerts page "all" ∧
      container.map some = page.allAlerts.map createAlertElement ∧
      container.length = page.allAlerts.length ∧
      noAlerts ∉ container := by
  have hmap := map_createAlertElement _ hwf
  refine ⟨page.allAlerts.filterMap createAlertElement, ?_, rfl, hmap, ?_, ?_⟩
  · rw [renderAlerts_of_wellFormed page "all" hwf, filter_matchesFilter_all, if_neg hne]
  · simpa using congrArg List.length hmap
  · intro hmem
    obtain ⟨b, _, hb⟩ := List.mem_filterMap.mp hmem
    exact createAlertElement_ne_noAlerts b noAlerts hb rfl

theorem renderAlerts_all_witness :
    (pageWith [alertA2, alertA1] "all").allAlerts ≠ [] ∧
    (∀ a ∈ (pageWith [alertA2, alertA1] "all").allAlerts,
      a.wellFormed = true) ∧
    ∃ container, renderAlerts (pageWith [alertA2, alertA1] "all") "all" =
        .normal { pageWith [alertA2, alertA1] "all" with
          alertsContainer := container } ∧
      renderAlerts (pageWith [alertA2, alertA1] "all") =
        renderAlerts (pageWith [alertA2, alertA1] "all") "all" ∧
      container.map some =
        (pageWith [alertA2, alertA1] "all").allAlerts.map
          createAlertElement ∧
      container.length = (pageWith [alertA2, alertA1] "all").allAlerts.length ∧
      noAlerts ∉ container :=
  ⟨by decide, by decide,
    renderAlerts_all (pageWith [alertA2, alertA1] "all") (by decide) (by decide)⟩

/-! ## The badge -/

theorem decimalText_natCast (k : Nat) : decimalText (k : Int) = Nat.repr k := by
  have h : ¬ ((k : Int) < 0) := by omega
  simp [decimalText, h]

/-- From the count `2 ^ 53` one more call leaves the count where it is: the
sum `2 ^ 53 + 1` is no double and rounds back to `2 ^ 53`. -/
theorem updateNotificationBadge_saturated (q : Page)
    (hq : badgeCount q.badge = .finite (2 ^ 53)) :
    (updateNotificationBadge q 1).badge =
      { textContent := "9007199254740992", display := "flex" } := by
  have hsum : (JsNumber.finite (2 ^ 53)).add (toNumber 1) = .finite (2 ^ 53) := by decide
  have htext : numberToString (.finite (2 ^ 53)) = "9007199254740992" := by decide
  simp only [updateNotificationBadge, hq, hsum, htext]
  rfl

/-- One call `updateNotificationBadge(1)` on a badge at a count `c` of at most
`2 ^ 53`. -/
theorem updateNotificationBadge_add_one (q : Page) (c : Nat)
    (hc : badgeCount q.badge = .finite (c : Int)) (hle : c ≤ 2 ^ 53) :
    (updateNotificationBadge q 1).badge =
      { textContent := Nat.repr (min (c + 1) (2 ^ 53)), display := "flex" } := by
  have h53 : (2 : Nat) ^ 53 = 9007199254740992 := by norm_num
  by_cases hlt : c < 2 ^ 53
  · have hone : (1 : Int).natAbs ≤ 2 ^ 53 := by decide
    have hsum : ((c : Int) + 1).natAbs ≤ 2 ^ 53 := by omega
    have hpos : (c : Int) + 1 > 0 := by omega
    have hmin : min (c + 1) (2 ^ 53) = c + 1 := by omega
    rw [updateNotificationBadge_of_safe q c 1 hc hone hsum, hmin]
    have hcast : ((c : Int) + 1) = ((c + 1 : Nat) : Int) := by push_cast; rfl
    simp only [hpos, if_true]
    rw [hcast, decimalText_natCast]
  · have heq : c = 2 ^ 53 := by omega
    subst heq
    have hmin : min (2 ^ 53 + 1) (2 ^ 53) = 2 ^ 53 := by omega
    rw [updateNotificationBadge_saturated q (by simpa using hc), hmin]
    have hrepr : Nat.repr (2 ^ 53) = "9007199254740992" := by decide
    rw [hrepr]

/-- The count that a badge at `0` has reached after `k` calls
`updateNotificationBadge(1)`: `k`, and `2 ^ 53` from there on. -/
theorem badgeCount_after_calls (page : Page) (hzero : badgeCount page.badge = .finite 0)
    (k : Nat) :
    badgeCount ((fun p => updateNotificationBadge p 1)^[k] page).badge =
      .finite ((min k (2 ^ 53) : Nat) : Int) := by
  induction k with
  | zero => simpa using hzero
  | succ j ih =>
    rw [Function.iterate_succ_apply']
    have hle : min j (2 ^ 53) ≤ 2 ^ 53 := Nat.min_le_right _ _
    have hstep := updateNotificationBadge_add_one _ _ ih hle
    have hmin : min (min j (2 ^ 53) + 1) (2 ^ 53) = min (j + 1) (2 ^ 53) := by omega
    rw [hmin] at hstep
    have hsafe : (((min (j + 1) (2 ^ 53) : Nat) : Int)).natAbs ≤ 2 ^ 53 := by omega
    have hcount := badgeCount_decimalText ((min (j + 1) (2 ^ 53) : Nat) : Int) hsafe "flex"
    rw [decimalText_natCast] at hcount
    rw [hstep]
    exact hcount

/-- The badge after `k >= 1` such calls. -/
theorem badge_after_calls (page : Page) (hzero : badgeCount page.badge = .finite 0)
    (k : Nat) (hk : 1 ≤ k) :
    ((fun p => updateNotificationBadge p 1)^[k] page).badge =
      { textContent := Nat.repr (min k (2 ^ 53)), display := "flex" } := by
  obtain ⟨j, rfl⟩ : ∃ j, k = j + 1 := ⟨k - 1, by omega⟩
  rw [Function.iterate_succ_apply']
  have hle : min j (2 ^ 53) ≤ 2 ^ 53 := Nat.min_le_right _ _
  have hstep := updateNotificationBadge_add_one _ _ (badgeCount_after_calls page hzero j) hle
  have hmin : min (min j (2 ^ 53) + 1) (2 ^ 53) = min (j + 1) (2 ^ 53) := by omega
  rw [hmin] at hstep
  exact hstep

/-- A call that brings the count to `0`. -/
theorem updateNotificationBadge_to_zero (q : Page) (n d : Int)
    (hn : badgeCount q.badge = .finite n) (hd : d.natAbs ≤ 2 ^ 53) (hsum : n + d = 0) :
    (updateNotificationBadge q d).badge = { textContent := "0", display := "none" } := by
  have hsafe : (n + d).natAbs ≤ 2 ^ 53 := by rw [hsum]; decide
  rw [updateNotificationBadge_of_safe q n d hn hd hsafe, hsum]
  have htext : decimalText 0 = "0" := by decide
  have hdisplay : (if (0 : Int) > 0 then "flex" else "none") = "none" := by decide
  simp only [htext, hdisplay]

/-- C9, as stated, fails: on a badge whose text shows the integer
9007199254740993 the call `updateNotificationBadge(1)` writes 9007199254740992,
not the text of 9007199254740994, because the count is a double. -/
theorem updateNotificationBadge_rounds :
    bigBadgePage.badge.textContent = decimalText 9007199254740993 ∧
    (updateNotificationBadge bigBadgePage 1).badge.textContent = "9007199254740992" ∧
    decimalText (9007199254740993 + 1) = "9007199254740994" ∧
    (updateNotificationBadge bigBadgePage 1).badge.textContent ≠
      decimalText (9007199254740993 + 1) := by
  refine ⟨by decide, by decide, by decide, ?_⟩
  have h1 : (updateNotificationBadge bigBadgePage 1).badge.textContent = "9007199254740992" := by
    decide
  have h2 : decimalText (9007199254740993 + 1) = "9007199254740994" := by decide
  rw [h1, h2]
  decide

/-- C9, amended: let `n` be what `parseInt(text) || 0` reads in the badge text:
the integer the text starts with (after white space and a sign; `m` for the
decimal text of `m`), and `0` when the text is empty or starts with no
integer. For every amount `d`, when `n`, `d` and `n + d` are at most `2 ^ 53` in
magnitude, one call `updateNotificationBadge(d)` writes the decimal text of
`n + d` and sets the display to "flex" if and only if `n + d > 0`, and to
"none" otherwise. -/
theorem updateNotificationBadge_spec (page : Page) (n d : Int)
    (hn : badgeCount page.badge = .finite n) (hd : d.natAbs ≤ 2 ^ 53)
    (hsum : (n + d).natAbs ≤ 2 ^ 53) :
    updateNotificationBadge page d =
      { page with
        badge := { textContent := decimalText (n + d)
                   display := if n + d > 0 then "flex" else "none" } } ∧
    ((updateNotificationBadge page d).badge.display = "flex" ↔ n + d > 0) ∧
    ((updateNotificationBadge page d).badge.display = "none" ↔ ¬ n + d > 0) ∧
    badgeCount (updateNotificationBadge page d).badge = .finite (n + d) ∧
    (∀ m : Int, m.natAbs ≤ 2 ^ 53 → page.badge.textContent = decimalText m → n = m) ∧
    (page.badge.textContent = "" → n = 0) ∧
    (parseInt page.badge.textContent = .nan → n = 0) ∧
    (∀ sign digits : List Char, StartsWithInteger page.badge.textContent sign digits →
      decimalValue digits ≤ 2 ^ 53 → n = writtenInteger sign digits) := by
  have hrun := updateNotificationBadge_of_safe page n d hn hd hsum
  have hnan : parseInt page.badge.textContent = .nan → n = 0 := by
    intro h
    simp only [badgeCount, h] at hn
    injection hn with hn
    exact hn.symm
  refine ⟨hrun, ?_, ?_, badgeCount_updateNotificationBadge page n d hn hd hsum, ?_, ?_, hnan, ?_⟩
  · rw [hrun]
    by_cases h : n + d > 0 <;> simp [h]
  · rw [hrun]
    by_cases h : n + d > 0 <;> simp [h]
  · intro m hm htext
    have hcount := badgeCount_decimalText m hm page.badge.display
    rw [← htext] at hcount
    rw [hn] at hcount
    injection hcount
  · intro hempty
    apply hnan
    rw [hempty]
    decide
  · rintro sign digits ⟨ws, rest, htext, hws, hsign, hdigits, hrest, hstart, hhex⟩ hbound
    have hparse := parseInt_leading ws sign digits rest hws hsign hdigits hrest hstart hhex
    rw [← htext] at hparse
    unfold writtenInteger
    by_cases hnil : digits = []
    · rw [if_pos hnil] at hparse ⊢
      exact hnan hparse
    · rw [if_neg hnil] at hparse ⊢
      have hsafe : ((if sign = ['-'] then -1 else 1) * (decimalValue digits : Int)).natAbs
          ≤ 2 ^ 53 := by
        split <;> simpa using hbound
      rw [toNumber_of_safe _ hsafe] at hparse
      simp only [badgeCount, hparse] at hn
      injection hn with hn
      exact hn.symm

theorem updateNotificationBadge_spec_witness :
    badgeCount blankPage.badge = .finite 0 ∧ (1 : Int).natAbs ≤ 2 ^ 53 ∧
    ((0 : Int) + 1).natAbs ≤ 2 ^ 53 ∧
    (updateNotificationBadge blankPage 1 =
      { blankPage with
        badge := { textContent := decimalText (0 + 1)
                   display := if (0 : Int) + 1 > 0 then "flex" else "none" } } ∧
    ((updateNotificationBadge blankPage 1).badge.display = "flex" ↔ (0 : Int) + 1 > 0) ∧
    ((updateNotificationBadge blankPage 1).badge.display = "none" ↔ ¬ (0 : Int) + 1 > 0) ∧
    badgeCount (updateNotificationBadge blankPage 1).badge = .finite (0 + 1) ∧
    (∀ m : Int, m.natAbs ≤ 2 ^ 53 → blankPage.badge.textContent = decimalText m → 0 = m) ∧
    (blankPage.badge.textContent = "" → (0 : Int) = 0) ∧
    (parseInt blankPage.badge.textContent = .nan → (0 : Int) = 0) ∧
    (∀ sign digits : List Char, StartsWithInteger blankPage.badge.textContent sign digits →
      decimalValue digits ≤ 2 ^ 53 → 0 = writtenInteger sign digits)) :=
  ⟨by decide, by decide, by decide,
    updateNotificationBadge_spec blankPage 0 1 (by decide) (by decide) (by decide)⟩

/-- C8, as stated, fails for `k = 2 ^ 53 + 1`: on the badge of the blank page,
which displays 0, that many calls `updateNotificationBadge(1)` leave the text
9007199254740992, not the text of `k`. -/
theorem updateNotificationBadge_saturates :
    blankPage.badge.textContent = "0" ∧
    ((fun p => updateNotificationBadge p 1)^[2 ^ 53 + 1] blankPage).badge.textContent =
      "9007199254740992" ∧
    ((fun p => updateNotificationBadge p 1)^[2 ^ 53 + 1] blankPage).badge.textContent ≠
      decimalText ((2 ^ 53 + 1 : Nat) : Int) := by
  have hzero : badgeCount blankPage.badge = .finite 0 := by decide
  have hbadge := badge_after_calls blankPage hzero (2 ^ 53 + 1) (by omega)
  have hmin : min (2 ^ 53 + 1) (2 ^ 53) = 2 ^ 53 := by omega
  have hrepr : Nat.repr (2 ^ 53) = "9007199254740992" := by decide
  rw [hmin, hrepr] at hbadge
  refine ⟨rfl, by rw [hbadge], ?_⟩
  rw [hbadge]
  decide

/-- C8, amended: on a badge that displays 0, `k >= 1` calls
`updateNotificationBadge(1)` in a row leave the display "flex" and the text of
`k` as long as `k` is at most `2 ^ 53` (from there on the text of `2 ^ 53`);
for such `k` the call `updateNotificationBadge(-k)` after them, like any call
that brings the count to 0, leaves the text "0" and the display "none". -/
theorem updateNotificationBadge_iterate (page : Page) (k : Nat) (hk : 1 ≤ k)
    (hzero : badgeCount page.badge = .finite 0) :
    ((fun p => updateNotificationBadge p 1)^[k] page).badge =
      { textContent := Nat.repr (min k (2 ^ 53)), display := "flex" } ∧
    (k ≤ 2 ^ 53 →
      ((fun p => updateNotificationBadge p 1)^[k] page).badge =
        { textContent := Nat.repr k, display := "flex" }) ∧
    (k ≤ 2 ^ 53 →
      (updateNotificationBadge ((fun p => updateNotificationBadge p 1)^[k] page)
          (-(k : Int))).badge =
        { textContent := "0", display := "none" }) ∧
    (∀ (q : Page) (n d : Int), badgeCount q.badge = .finite n → d.natAbs ≤ 2 ^ 53 →
      n + d = 0 →
      (updateNotificationBadge q d).badge = { textContent := "0", display := "none" }) := by
  have hbadge := badge_after_calls page hzero k hk
  refine ⟨hbadge, ?_, ?_, updateNotificationBadge_to_zero⟩
  · intro hle
    rw [hbadge, Nat.min_eq_left hle]
  · intro hle
    have hcount := badgeCount_after_calls page hzero k
    rw [Nat.min_eq_left hle] at hcount
    exact updateNotificationBadge_to_zero _ (k : Int) (-(k : Int)) hcount (by omega) (by omega)

theorem updateNotificationBadge_iterate_witness :
    1 ≤ 3 ∧ badgeCount blankPage.badge = .finite 0 ∧
    (((fun p => updateNotificationBadge p 1)^[3] blankPage).badge =
      { textContent := Nat.repr (min 3 (2 ^ 53)), display := "flex" } ∧
    (3 ≤ 2 ^ 53 →
      ((fun p => updateNotificationBadge p 1)^[3] blankPage).badge =
        { textContent := Nat.repr 3, display := "flex" }) ∧
    (3 ≤ 2 ^ 53 →
      (updateNotificationBadge ((fun p => updateNotificationBadge p 1)^[3] blankPage)
          (-((3 : Nat) : Int))).badge =
        { textContent := "0", display := "none" }) ∧
    (∀ (q : Page) (n d : Int), badgeCount q.badge = .finite n → d.natAbs ≤ 2 ^ 53 →
      n + d = 0 →
      (updateNotificationBadge q d).badge = { textContent := "0", display := "none" })) :=
  ⟨by decide, by decide, updateNotificationBadge_iterate blankPage 3 (by decide) (by decide)⟩

/-! ## The push handler -/

theorem appendAlertElements_frame (M : List Alert) (page : Page) :
    ∃ container, (appendAlertElements page M).page = { page with alertsContainer := container } := by
  induction M generalizing page with
  | nil => exact ⟨page.alertsContainer, rfl⟩
  | cons a rest ih =>
    cases he : createAlertElement a with
    | none => exact ⟨page.alertsContainer, by simp [appendAlertElements, he, Completion.page]⟩
    | some e =>
      obtain ⟨c, hc⟩ := ih { page with alertsContainer := page.alertsContainer ++ [e] }
      exact ⟨c, by simp [appendAlertElements, he, hc]⟩

/-- Whether it returns or throws, `renderAlerts` writes nothing but the
container of the alerts. -/
theorem renderAlerts_frame (page : Page) (filter : String) :
    ∃ container, (renderAlerts page filter).page = { page with alertsContainer := container } := by
  unfold renderAlerts
  simp only
  split
  · exact ⟨[], rfl⟩
  · split
    · exact ⟨[noAlerts], rfl⟩
    · obtain ⟨c, hc⟩ := appendAlertElements_frame _ { page with alertsContainer := [] }
      exact ⟨c, by rw [hc]⟩

theorem onNewAlert_allAlerts (page : Page) (newAlert : Alert) :
    (onNewAlert page newAlert).page.allAlerts = newAlert :: page.allAlerts := by
  obtain ⟨c, hc⟩ := renderAlerts_frame { page with allAlerts := newAlert :: page.allAlerts }
    page.riskFilter
  unfold onNewAlert
  simp only
  cases hr : renderAlerts { page with allAlerts := newAlert :: page.allAlerts } page.riskFilter with
  | normal q =>
    rw [hr] at hc
    simp only [Completion.page] at hc
    simp [Completion.andThen, Completion.page, showNotification, updateNotificationBadge, hc]
  | throw q =>
    rw [hr] at hc
    simp only [Completion.page] at hc
    simp [Completion.andThen, Completion.page, hc]

theorem deliver_allAlerts (page : Page) (events : List Alert) :
    (deliver page events).allAlerts = events.reverse ++ page.allAlerts := by
  induction events generalizing page with
  | nil => rfl
  | cons e rest ih =>
    have hstep : deliver page (e :: rest) = deliver (onNewAlert page e).page rest := rfl
    rw [hstep, ih, onNewAlert_allAlerts]
    simp

/-- C4: from an empty alert list, after the push events `e1 .. eN` were
delivered in that order the alert list is `[eN, .., e1]`: it has length `N`, the
last event is at index 0, and the event delivered `i`-th from the end is at
index `i`, whatever the ids are (no event is dropped, merged or moved). -/
theorem deliver_from_empty (page : Page) (events : List Alert) (hempty : page.allAlerts = []) :
    (deliver page events).allAlerts = events.reverse ∧
    (deliver page events).allAlerts.length = events.length ∧
    (deliver page events).allAlerts.head? = events.getLast? ∧
    (∀ i, i < events.length →
      (deliver page events).allAlerts[i]? = events[events.length - 1 - i]?) := by
  have h : (deliver page events).allAlerts = events.reverse := by
    rw [deliver_allAlerts, hempty, List.append_nil]
  refine ⟨h, ?_, ?_, ?_⟩
  · rw [h, List.length_reverse]
  · rw [h, List.head?_reverse]
  · intro i hi
    rw [h, List.getElem?_reverse hi]

theorem deliver_from_empty_witness :
    blankPage.allAlerts = [] ∧
    ((deliver blankPage [alertA1, alertA2, alertA1]).allAlerts =
      [alertA1, alertA2, alertA1].reverse ∧
    (deliver blankPage [alertA1, alertA2, alertA1]).allAlerts.length =
      [alertA1, alertA2, alertA1].length ∧
    (deliver blankPage [alertA1, alertA2, alertA1]).allAlerts.head? =
      [alertA1, alertA2, alertA1].getLast? ∧
    (∀ i, i < [alertA1, alertA2, alertA1].length →
      (deliver blankPage [alertA1, alertA2, alertA1]).allAlerts[i]? =
        [alertA1, alertA2, alertA1][[alertA1, alertA2, alertA1].length - 1 - i]?)) :=
  ⟨rfl, deliver_from_empty blankPage [alertA1, alertA2, alertA1] rfl⟩

/-- C5, as stated, fails. After a reload while "high" is selected the view
shows both alerts of the list (the load renders with "all"); a pushed alert of
risk "Low", which does not pass the filter, then leaves one card where there
were two: the displayed widgets are not the same as before the push. And on a
badge at count `2 ^ 53` the push leaves the count where it is. -/
theorem onNewAlert_view_changes :
    reloadedPage.riskFilter = "high" ∧
    reloadedPage.allAlerts = [alertA1, alertA2] ∧
    (∀ a ∈ alertA3 :: reloadedPage.allAlerts, a.wellFormed = true) ∧
    matchesFilter reloadedPage.riskFilter alertA3 = false ∧
    reloadedPage.alertsContainer.length = 2 ∧
    (onNewAlert reloadedPage alertA3).page.alertsContainer.length = 1 ∧
    (onNewAlert reloadedPage alertA3).page.alertsContainer ≠ reloadedPage.alertsContainer ∧
    (onNewAlert
        { blankPage with badge := { textContent := "9007199254740992", display := "flex" } }
        alertA1).page.badge.textContent = "9007199254740992" := by
  have hbefore : reloadedPage.alertsContainer.length = 2 := by decide
  have hafter : (onNewAlert reloadedPage alertA3).page.alertsContainer.length = 1 := by decide
  refine ⟨by decide, by decide, by decide, by decide, hbefore, hafter, ?_, by decide⟩
  intro h
  rw [h, hbefore] at hafter
  exact absurd hafter (by decide)

/-- C5, amended: for an alert list `L` and a pushed alert `a` of the data model
(well-formed), any selected filter value `f` and a badge count `c` with
`-2 ^ 53 <= c < 2 ^ 53`, one run of the handler returns and leaves the list
`a :: L`, the container that `renderAlerts(f)` gives over `a :: L`, the badge
at count `c + 1`, and one more toast, of kind info, whose text is
"New <risk of a> risk alert from <username of a>". When `a` does not pass the
filter, that container is the one `renderAlerts(f)` gives over `L`; so the
view is the same as before the push if it was that one before. -/
theorem onNewAlert_spec (page : Page) (newAlert : Alert) (c : Int)
    (hwf : ∀ a ∈ newAlert :: page.allAlerts, a.wellFormed = true)
    (hc : badgeCount page.badge = .finite c) (hlow : -(2 ^ 53) ≤ c) (hhigh : c < 2 ^ 53) :
    ∃ container risk,
      newAlert.risk = some risk ∧
      renderAlerts { page with allAlerts := newAlert :: page.allAlerts } page.riskFilter =
        .normal { page with allAlerts := newAlert :: page.allAlerts, alertsContainer := container } ∧
      onNewAlert page newAlert =
        .normal { page with
          allAlerts := newAlert :: page.allAlerts
          alertsContainer := container
          badge := { textContent := decimalText (c + 1)
                     display := if c + 1 > 0 then "flex" else "none" }
          body := page.body ++
            [{ className := "notification info"
               innerHTML := "<i class=\"fas fa-info-circle\"></i><span>" ++
                 ("New " ++ risk ++ " risk alert from " ++ newAlert.username) ++ "</span>" }] } ∧
      badgeCount (onNewAlert page newAlert).page.badge = .finite (c + 1) ∧
      (matchesFilter page.riskFilter newAlert = false →
        renderAlerts page page.riskFilter = .normal { page with alertsContainer := container }) ∧
      (matchesFilter page.riskFilter newAlert = false →
        (renderAlerts page page.riskFilter).page.alertsContainer = page.alertsContainer →
        (onNewAlert page newAlert).page.alertsContainer = page.alertsContainer) := by
  have h53 : (2 : Int) ^ 53 = 9007199254740992 := by norm_num
  have h53n : (2 : Nat) ^ 53 = 9007199254740992 := by norm_num
  have hone : (1 : Int).natAbs ≤ 2 ^ 53 := by decide
  have hsum : (c + 1).natAbs ≤ 2 ^ 53 := by omega
  have hnew := hwf newAlert (List.mem_cons_self _ _)
  have hold : ∀ a ∈ page.allAlerts, a.wellFormed = true :=
    fun a ha => hwf a (List.mem_cons_of_mem _ ha)
  obtain ⟨risk, hrisk⟩ : ∃ risk, newAlert.risk = some risk := by
    cases hr : newAlert.risk with
    | none => simp [Alert.wellFormed, hr] at hnew
    | some r => exact ⟨r, rfl⟩
  have hrender := renderAlerts_of_wellFormed
    { page with allAlerts := newAlert :: page.allAlerts } page.riskFilter hwf
  have hrun : onNewAlert page newAlert =
      .normal { page with
        allAlerts := newAlert :: page.allAlerts
        alertsContainer :=
          if (newAlert :: page.allAlerts).filter (matchesFilter page.riskFilter) = [] then [noAlerts]
          else ((newAlert :: page.allAlerts).filter
            (matchesFilter page.riskFilter)).filterMap createAlertElement
        badge := { textContent := decimalText (c + 1)
                   display := if c + 1 > 0 then "flex" else "none" }
        body := page.body ++
          [{ className := "notification info"
             innerHTML := "<i class=\"fas fa-info-circle\"></i><span>" ++
               ("New " ++ risk ++ " risk alert from " ++ newAlert.username) ++ "</span>" }] } := by
    unfold onNewAlert
    simp only
    rw [hrender]
    simp only [Completion.andThen]
    have hupd : ∀ q : Page, q.badge = page.badge →
        updateNotificationBadge q 1 =
          { q with
            badge := { textContent := decimalText (c + 1)
                       display := if c + 1 > 0 then "flex" else "none" } } := by
      intro q hq
      exact updateNotificationBadge_of_safe q c 1 (by rw [hq]; exact hc) hone hsum
    congr 1
    refine (hupd _ ?_).trans ?_
    · rfl
    · simp [showNotification, hrisk, interpolate]
  have hsame : matchesFilter page.riskFilter newAlert = false →
      renderAlerts page page.riskFilter =
        .normal { page with
          alertsContainer :=
            if (newAlert :: page.allAlerts).filter (matchesFilter page.riskFilter) = [] then
              [noAlerts]
            else ((newAlert :: page.allAlerts).filter
              (matchesFilter page.riskFilter)).filterMap createAlertElement } := by
    intro hno
    rw [renderAlerts_of_wellFormed page page.riskFilter hold]
    simp [List.filter_cons, hno]
  refine ⟨_, risk, hrisk, hrender, hrun, ?_, hsame, ?_⟩
  · rw [hrun]
    exact badgeCount_decimalText (c + 1) hsum _
  · intro hno hbefore
    rw [hsame hno] at hbefore
    rw [hrun]
    exact hbefore

theorem onNewAlert_spec_witness :
    (∀ a ∈ alertA2 :: (pageWith [alertA1] "high").allAlerts, a.wellFormed = true) ∧
    badgeCount (pageWith [alertA1] "high").badge = .finite 0 ∧
    -(2 ^ 53) ≤ (0 : Int) ∧ (0 : Int) < 2 ^ 53 ∧
    ∃ container risk,
      alertA2.risk = some risk ∧
      renderAlerts { pageWith [alertA1] "high" with
          allAlerts := alertA2 :: (pageWith [alertA1] "high").allAlerts }
          (pageWith [alertA1] "high").riskFilter =
        .normal { pageWith [alertA1] "high" with
          allAlerts := alertA2 :: (pageWith [alertA1] "high").allAlerts
          alertsContainer := container } ∧
      onNewAlert (pageWith [alertA1] "high") alertA2 =
        .normal { pageWith [alertA1] "high" with
          allAlerts := alertA2 :: (pageWith [alertA1] "high").allAlerts
          alertsContainer := container
          badge := { textContent := decimalText (0 + 1)
                     display := if (0 : Int) + 1 > 0 then "flex" else "none" }
          body := (pageWith [alertA1] "high").body ++
            [{ className := "notification info"
               innerHTML := "<i class=\"fas fa-info-circle\"></i><span>" ++
                 ("New " ++ risk ++ " risk alert from " ++ alertA2.username) ++ "</span>" }] } ∧
      badgeCount (onNewAlert (pageWith [alertA1] "high") alertA2).page.badge = .finite (0 + 1) ∧
      (matchesFilter (pageWith [alertA1] "high").riskFilter alertA2 = false →
        renderAlerts (pageWith [alertA1] "high") (pageWith [alertA1] "high").riskFilter =
          .normal { pageWith [alertA1] "high" with alertsContainer := container }) ∧
      (matchesFilter (pageWith [alertA1] "high").riskFilter alertA2 = false →
        (renderAlerts (pageWith [alertA1] "high")
          (pageWith [alertA1] "high").riskFilter).page.alertsContainer =
          (pageWith [alertA1] "high").alertsContainer →
        (onNewAlert (pageWith [alertA1] "high") alertA2).page.alertsContainer =
          (pageWith [alertA1] "high").alertsContainer) :=
  ⟨by decide, by decide, by decide, by decide,
    onNewAlert_spec (pageWith [alertA1] "high") alertA2 0 (by decide) (by decide) (by decide)
      (by decide)⟩

/-! ## Initial load and refresh: what a run changes -/

theorem updateStats_frame {Num : Type} (page : Page) (ops : NumOps Num) (stats : Stats Num) :
    ∃ cards, (updateStats page ops stats).page = { page with statCards := cards } := by
  unfold updateStats
  split
  · exact ⟨page.statCards, rfl⟩
  · split
    · exact ⟨_, rfl⟩
    · split
      · exact ⟨_, rfl⟩
      · exact ⟨_, rfl⟩

theorem updateModelHealth_frame {Num : Type} (page : Page) (ops : NumOps Num)
    (health : ModelHealth Num) :
    ∃ panel, (updateModelHealth page ops health).page = { page with healthPanel := panel } := by
  unfold updateModelHealth
  simp only
  split
  · exact ⟨_, rfl⟩
  · exact ⟨_, rfl⟩

theorem fetchInitialDataTry_frame {Num : Type} (page : Page) (ops : NumOps Num)
    (net : Fetches Num) :
    ∃ alerts container cards panel,
      (fetchInitialDataTry page ops net).page =
        { page with allAlerts := alerts, alertsContainer := container, statCards := cards,
                    healthPanel := panel } := by
  unfold fetchInitialDataTry
  split
  · next alertsRes statsRes modelHealthRes _ _ _ =>
    split
    · exact ⟨_, _, _, _, rfl⟩
    · next alerts _ =>
      simp only
      split
      · exact ⟨_, _, _, _, rfl⟩
      · next statsData _ =>
        split
        · exact ⟨_, _, _, _, rfl⟩
        · next modelHealthData _ =>
          obtain ⟨c, hc⟩ := renderAlerts_frame { page with allAlerts := alerts } "all"
          cases hr : renderAlerts { page with allAlerts := alerts } "all" with
          | throw q =>
            rw [hr] at hc
            simp only [Completion.page] at hc
            exact ⟨alerts, c, page.statCards, page.healthPanel, by
              simp [Completion.andThen, Completion.page, hc]⟩
          | normal q =>
            rw [hr] at hc
            simp only [Completion.page] at hc
            subst hc
            obtain ⟨cards, hcards⟩ := updateStats_frame
              { page with allAlerts := alerts, alertsContainer := c } ops statsData
            cases hs : updateStats { page with allAlerts := alerts, alertsContainer := c } ops
                statsData with
            | throw q2 =>
              rw [hs] at hcards
              simp only [Completion.page] at hcards
              subst hcards
              exact ⟨alerts, c, cards, page.healthPanel, by
                simp [Completion.andThen, Completion.page, hs]⟩
            | normal q2 =>
              rw [hs] at hcards
              simp only [Completion.page] at hcards
              subst hcards
              obtain ⟨panel, hpanel⟩ := updateModelHealth_frame
                { page with allAlerts := alerts, alertsContainer := c, statCards := cards } ops
                modelHealthData
              exact ⟨alerts, c, cards, panel, by
                simp only [Completion.andThen, hs]
                rw [hpanel]⟩
  · exact ⟨_, _, _, _, rfl⟩


theorem fetchInitialData_body {Num : Type} (page : Page) (ops : NumOps Num) (net : Fetches Num) :
    (fetchInitialData page ops net).body =
      if (fetchInitialDataTry page ops net).threw then page.body ++ [errorToast] else page.body := by
  obtain ⟨a, c, s, h, hf⟩ := fetchInitialDataTry_frame page ops net
  unfold fetchInitialData
  cases hr : fetchInitialDataTry page ops net with
  | normal q =>
    rw [hr] at hf
    simp only [Completion.page] at hf
    simp [Completion.threw, hf]
  | throw q =>
    rw [hr] at hf
    simp only [Completion.page] at hf
    simp [Completion.threw, hf, showNotification, errorToast]

/-- C6, as stated, fails. When the body of `/api/stats` does not decode, the
load fails with one error toast, yet the alert list, empty before the call,
holds the fetched alert. When the stats payload lacks `accounts_blocked`,
`updateStats` throws: the load fails with one error toast after the list was
replaced, the alert card displayed and the first two stat cards written. -/
theorem fetchInitialData_not_atomic :
    (fetchInitialDataTry blankPage exampleOps loadStatsUndecodable).threw = true ∧
    blankPage.allAlerts = [] ∧
    (fetchInitialData blankPage exampleOps loadStatsUndecodable).allAlerts = [alertA1] ∧
    (fetchInitialData blankPage exampleOps loadStatsUndecodable).body = [errorToast] ∧
    (fetchInitialDataTry blankPage exampleOps loadStatsIncomplete).threw = true ∧
    (fetchInitialData blankPage exampleOps loadStatsIncomplete).allAlerts = [alertA1] ∧
    (fetchInitialData blankPage exampleOps loadStatsIncomplete).alertsContainer.length = 1 ∧
    blankPage.alertsContainer = [] ∧
    (fetchInitialData blankPage exampleOps loadStatsIncomplete).statCards =
      { value1 := "100", value2 := "5", value3 := "", value4 := "" } ∧
    (fetchInitialData blankPage exampleOps loadStatsIncomplete).body = [errorToast] := by
  decide

theorem appendAlertElements_normal (M : List Alert) (page q : Page)
    (h : appendAlertElements page M = .normal q) :
    q = { page with alertsContainer := page.alertsContainer ++ M.filterMap createAlertElement } ∧
      (M.filterMap createAlertElement).map some = M.map createAlertElement := by
  induction M generalizing page with
  | nil => simp [appendAlertElements] at h; simp [h]
  | cons a rest ih =>
    cases he : createAlertElement a with
    | none => simp [appendAlertElements, he] at h
    | some e =>
      simp only [appendAlertElements, he] at h
      obtain ⟨h1, h2⟩ := ih _ h
      rw [h1]
      simp [List.filterMap_cons, he, h2]

theorem renderAlerts_all_normal (page q : Page) (h : renderAlerts page "all" = .normal q) :
    q = { page with
      alertsContainer :=
        if page.allAlerts = [] then [noAlerts] else page.allAlerts.filterMap createAlertElement } ∧
      (page.allAlerts ≠ [] →
        (page.allAlerts.filterMap createAlertElement).map some =
          page.allAlerts.map createAlertElement) := by
  unfold renderAlerts at h
  simp only [if_true] at h
  by_cases hnil : page.allAlerts = []
  · simp [hnil] at h
    simp [hnil, ← h]
  · have hlen : page.allAlerts.length ≠ 0 := by simpa using hnil
    simp only [hlen, if_false] at h
    obtain ⟨h1, h2⟩ := appendAlertElements_normal _ _ _ h
    rw [h1]
    simp [hnil, h2]

theorem fetchInitialDataTry_normal {Num : Type} (page q : Page) (ops : NumOps Num)
    (net : Fetches Num) (h : fetchInitialDataTry page ops net = .normal q) :
    ∃ S statsData healthData q1 q2,
      net.alerts = some { json := some S } ∧ net.stats = some { json := some statsData } ∧
      net.modelHealth = some { json := some healthData } ∧
      renderAlerts { page with allAlerts := S } "all" = .normal q1 ∧
      updateStats q1 ops statsData = .normal q2 ∧
      updateModelHealth q2 ops healthData = .normal q := by
  unfold fetchInitialDataTry at h
  split at h
  · next alertsRes statsRes modelHealthRes ha hs hm =>
    split at h
    · simp at h
    · next S hS =>
      simp only at h
      split at h
      · simp at h
      · next statsData hsd =>
        split at h
        · simp at h
        · next healthData hhd =>
          cases hr : renderAlerts { page with allAlerts := S } "all" with
          | throw q1 => rw [hr] at h; simp [Completion.andThen] at h
          | normal q1 =>
            rw [hr] at h
            simp only [Completion.andThen] at h
            cases hu : updateStats q1 ops statsData with
            | throw q2 => rw [hu] at h; simp at h
            | normal q2 =>
              rw [hu] at h
              simp only at h
              refine ⟨S, statsData, healthData, q1, q2, ?_, ?_, ?_, hr, hu, h⟩
              · rw [ha, ← hS]
              · rw [hs, ← hsd]
              · rw [hm, ← hhd]
  · simp at h


/-- C6, amended: in every run of `fetchInitialData` in which a step fails,
exactly one error toast is shown. When a `fetch` rejects or the alerts payload
does not decode, nothing else changes: alert list and displays are as before
the call. When the three requests resolve and the alerts payload decodes, the
alert list has been replaced by the fetched alerts although the load fails;
if the failing step is the decoding of the stats or of the health payload,
no display has been written. -/
theorem fetchInitialData_failure {Num : Type} (page : Page) (ops : NumOps Num)
    (net : Fetches Num) (hfail : (fetchInitialDataTry page ops net).threw = true) :
    (fetchInitialData page ops net).body = page.body ++ [errorToast] ∧
    (net.alerts = none ∨ net.stats = none ∨ net.modelHealth = none ∨
        net.alerts = some { json := none } →
      fetchInitialData page ops net = { page with body := page.body ++ [errorToast] }) ∧
    (∀ (S : List Alert) (statsRes : Response (Stats Num))
        (modelHealthRes : Response (ModelHealth Num)),
      net.alerts = some { json := some S } → net.stats = some statsRes →
      net.modelHealth = some modelHealthRes →
        (fetchInitialData page ops net).allAlerts = S ∧
        (statsRes.json = none ∨ modelHealthRes.json = none →
          fetchInitialData page ops net =
            { page with allAlerts := S, body := page.body ++ [errorToast] })) := by
  refine ⟨?_, ?_, ?_⟩
  · rw [fetchInitialData_body, hfail]
    simp
  · intro hcase
    have htry : fetchInitialDataTry page ops net = .throw page := by
      unfold fetchInitialDataTry
      rcases hcase with h | h | h | h
      · simp [h]
      · rw [h]; split <;> simp_all
      · rw [h]; split <;> simp_all
      · rw [h]
        split
        · rename_i h1 h2 h3
          simp only [Option.some.injEq] at h1
          subst h1
          rfl
        · rfl
    simp [fetchInitialData, htry, showNotification, errorToast]
  · intro S statsRes modelHealthRes ha hs hm
    constructor
    · obtain ⟨c, hc⟩ := renderAlerts_frame { page with allAlerts := S } "all"
      unfold fetchInitialData fetchInitialDataTry
      rw [ha, hs, hm]
      simp only
      cases hsj : statsRes.json with
      | none => simp [showNotification]
      | some statsData =>
        cases hmj : modelHealthRes.json with
        | none => simp [showNotification]
        | some healthData =>
          simp only
          cases hr : renderAlerts { page with allAlerts := S } "all" with
          | throw q =>
            rw [hr] at hc
            simp only [Completion.page] at hc
            simp [Completion.andThen, showNotification, hc]
          | normal q =>
            rw [hr] at hc
            simp only [Completion.page] at hc
            subst hc
            obtain ⟨cards, hcards⟩ := updateStats_frame
              { page with allAlerts := S, alertsContainer := c } ops statsData
            cases hu : updateStats { page with allAlerts := S, alertsContainer := c } ops
                statsData with
            | throw q2 =>
              rw [hu] at hcards
              simp only [Completion.page] at hcards
              simp [Completion.andThen, hu, showNotification, hcards]
            | normal q2 =>
              rw [hu] at hcards
              simp only [Completion.page] at hcards
              subst hcards
              obtain ⟨panel, hpanel⟩ := updateModelHealth_frame
                { page with allAlerts := S, alertsContainer := c, statCards := cards } ops
                healthData
              cases hh : updateModelHealth
                  { page with allAlerts := S, alertsContainer := c, statCards := cards } ops
                  healthData with
              | throw q3 =>
                rw [hh] at hpanel
                simp only [Completion.page] at hpanel
                simp [Completion.andThen, hu, hh, showNotification, hpanel]
              | normal q3 =>
                rw [hh] at hpanel
                simp only [Completion.page] at hpanel
                simp [Completion.andThen, hu, hh, hpanel]
    · intro hcase
      have htry : fetchInitialDataTry page ops net = .throw { page with allAlerts := S } := by
        unfold fetchInitialDataTry
        rw [ha, hs, hm]
        simp only
        rcases hcase with h | h
        · simp [h]
        · rw [h]; split <;> simp
      simp [fetchInitialData, htry, showNotification, errorToast]

theorem fetchInitialData_failure_witness :
    (fetchInitialDataTry blankPage exampleOps loadRejected).threw = true ∧
    ((fetchInitialData blankPage exampleOps loadRejected).body = blankPage.body ++ [errorToast] ∧
    (loadRejected.alerts = none ∨ loadRejected.stats = none ∨ loadRejected.modelHealth = none ∨
        loadRejected.alerts = some { json := none } →
      fetchInitialData blankPage exampleOps loadRejected =
        { blankPage with body := blankPage.body ++ [errorToast] }) ∧
    (∀ (S : List Alert) (statsRes : Response (Stats Nat))
        (modelHealthRes : Response (ModelHealth Nat)),
      loadRejected.alerts = some { json := some S } → loadRejected.stats = some statsRes →
      loadRejected.modelHealth = some modelHealthRes →
        (fetchInitialData blankPage exampleOps loadRejected).allAlerts = S ∧
        (statsRes.json = none ∨ modelHealthRes.json = none →
          fetchInitialData blankPage exampleOps loadRejected =
            { blankPage with allAlerts := S, body := blankPage.body ++ [errorToast] }))) :=
  ⟨by decide, fetchInitialData_failure blankPage exampleOps loadRejected (by decide)⟩

/-- C7: whatever the previous alert list and the selected filter value, after
a run of `fetchInitialData` that succeeds on the fetched alerts `S`, the alert
list is `S` and the container is the one that `renderAlerts("all")` gives over
`S`: the placeholder for an empty `S`, else one card per alert of `S` in the
order of `S`. The selected filter value is neither read nor changed, and no
toast is shown. -/
theorem fetchInitialData_success {Num : Type} (page : Page) (ops : NumOps Num)
    (net : Fetches Num) (S : List Alert) (halerts : net.alerts = some { json := some S })
    (hok : (fetchInitialDataTry page ops net).threw = false) :
    (fetchInitialData page ops net).allAlerts = S ∧
    renderAlerts { page with allAlerts := S } "all" =
      .normal { page with
        allAlerts := S
        alertsContainer := (fetchInitialData page ops net).alertsContainer } ∧
    (fetchInitialData page ops net).alertsContainer =
      (if S = [] then [noAlerts] else S.filterMap createAlertElement) ∧
    (S ≠ [] → (fetchInitialData page ops net).alertsContainer.map some =
      S.map createAlertElement) ∧
    (fetchInitialData page ops net).riskFilter = page.riskFilter ∧
    (fetchInitialData page ops net).body = page.body := by
  cases htry : fetchInitialDataTry page ops net with
  | throw q => rw [htry] at hok; simp [Completion.threw] at hok
  | normal q =>
    obtain ⟨S', statsData, healthData, q1, q2, ha, _, _, hr, hu, hh⟩ :=
      fetchInitialDataTry_normal page q ops net htry
    have hS : S' = S := by
      rw [ha] at halerts
      simpa using halerts
    subst hS
    obtain ⟨hq1, hmap⟩ := renderAlerts_all_normal _ _ hr
    obtain ⟨cards, hcards⟩ := updateStats_frame q1 ops statsData
    obtain ⟨panel, hpanel⟩ := updateModelHealth_frame q2 ops healthData
    rw [hu] at hcards
    rw [hh] at hpanel
    simp only [Completion.page] at hcards hpanel
    have hfinal : fetchInitialData page ops net = q := by simp [fetchInitialData, htry]
    have hcont : q.alertsContainer =
        (if S' = [] then [noAlerts] else S'.filterMap createAlertElement) := by
      rw [hpanel, hcards, hq1]
    rw [hfinal]
    refine ⟨?_, ?_, hcont, ?_, ?_, ?_⟩
    · rw [hpanel, hcards, hq1]
    · rw [hr, hcont, hq1]
    · intro hne
      rw [hcont, if_neg hne]
      exact hmap hne
    · rw [hpanel, hcards, hq1]
    · rw [hpanel, hcards, hq1]


theorem fetchInitialData_success_witness :
    loadOk.alerts = some { json := some [alertA1] } ∧
    (fetchInitialDataTry (pageWith [alertA2] "low")
      exampleOps loadOk).threw = false ∧
    ((fetchInitialData (pageWith [alertA2] "low")
        exampleOps loadOk).allAlerts = [alertA1] ∧
    renderAlerts
        { (pageWith [alertA2] "low") with
          allAlerts := [alertA1] } "all" =
      .normal { (pageWith [alertA2] "low") with
        allAlerts := [alertA1]
        alertsContainer :=
          (fetchInitialData (pageWith [alertA2] "low")
            exampleOps loadOk).alertsContainer } ∧
    (fetchInitialData (pageWith [alertA2] "low")
        exampleOps loadOk).alertsContainer =
      (if [alertA1] = [] then [noAlerts] else [alertA1].filterMap createAlertElement) ∧
    ([alertA1] ≠ [] →
      (fetchInitialData (pageWith [alertA2] "low")
        exampleOps loadOk).alertsContainer.map some = [alertA1].map createAlertElement) ∧
    (fetchInitialData (pageWith [alertA2] "low")
        exampleOps loadOk).riskFilter =
      (pageWith [alertA2] "low").riskFilter ∧
    (fetchInitialData (pageWith [alertA2] "low")
        exampleOps loadOk).body =
      (pageWith [alertA2] "low").body) :=
  ⟨rfl, by decide,
    fetchInitialData_success (pageWith [alertA2] "low")
      exampleOps loadOk [alertA1] rfl (by decide)⟩

/-- A load whose three requests resolve and decode to well-formed payloads
succeeds. -/
theorem fetchInitialDataTry_of_wellFormed {Num : Type} (page : Page) (ops : NumOps Num)
    (net : Fetches Num) (S : List Alert) (statsData : Stats Num) (healthData : ModelHealth Num)
    (ha : net.alerts = some { json := some S }) (hs : net.stats = some { json := some statsData })
    (hm : net.modelHealth = some { json := some healthData })
    (hwf : ∀ a ∈ S, a.wellFormed = true)
    (h1 : statsData.messages_analyzed.isSome = true) (h2 : statsData.sellers_detected.isSome = true)
    (h3 : statsData.accounts_blocked.isSome = true) (h4 : healthData.status.isSome = true) :
    (fetchInitialDataTry page ops net).threw = false := by
  obtain ⟨m, hm1⟩ := Option.isSome_iff_exists.mp h1
  obtain ⟨s, hs1⟩ := Option.isSome_iff_exists.mp h2
  obtain ⟨b, hb1⟩ := Option.isSome_iff_exists.mp h3
  obtain ⟨t, ht1⟩ := Option.isSome_iff_exists.mp h4
  unfold fetchInitialDataTry
  rw [ha, hs, hm]
  simp only
  rw [renderAlerts_of_wellFormed { page with allAlerts := S } "all" hwf]
  simp [Completion.andThen, updateStats, updateModelHealth, hm1, hs1, hb1, ht1, Completion.threw]

/-- C10: whatever the reload comes to, `refreshAlerts` leaves the refresh
button with its normal label, after the busy label it had during the reload,
and appends one "Dashboard data refreshed." toast after everything the reload
showed: after the single error toast when the reload failed, directly after
the toasts that were there when it succeeded. -/
theorem refreshAlerts_spec {Num : Type} (page : Page) (ops : NumOps Num) (net : Fetches Num) :
    (refreshAlerts page ops net).refreshBtn = "<i class=\"fas fa-sync-alt\"></i> Refresh" ∧
    (fetchInitialData
      { page with refreshBtn := "<i class=\"fas fa-spinner fa-spin\"></i> Refreshing" }
      ops net).refreshBtn = "<i class=\"fas fa-spinner fa-spin\"></i> Refreshing" ∧
    (refreshAlerts page ops net).body =
      (fetchInitialData
        { page with refreshBtn := "<i class=\"fas fa-spinner fa-spin\"></i> Refreshing" }
        ops net).body ++ [refreshedToast] ∧
    (refreshAlerts page ops net).body =
      (if (fetchInitialDataTry
            { page with refreshBtn := "<i class=\"fas fa-spinner fa-spin\"></i> Refreshing" }
            ops net).threw
        then page.body ++ [errorToast, refreshedToast]
        else page.body ++ [refreshedToast]) ∧
    errorToast ≠ refreshedToast := by
  have hbody : (refreshAlerts page ops net).body =
      (fetchInitialData
        { page with refreshBtn := "<i class=\"fas fa-spinner fa-spin\"></i> Refreshing" }
        ops net).body ++ [refreshedToast] := rfl
  refine ⟨rfl, ?_, hbody, ?_, by decide⟩
  · obtain ⟨a, c, s, h, hf⟩ := fetchInitialDataTry_frame
      { page with refreshBtn := "<i class=\"fas fa-spinner fa-spin\"></i> Refreshing" } ops net
    unfold fetchInitialData
    cases hr : fetchInitialDataTry
        { page with refreshBtn := "<i class=\"fas fa-spinner fa-spin\"></i> Refreshing" } ops net with
    | normal q =>
      rw [hr] at hf
      simp only [Completion.page] at hf
      simp [hf]
    | throw q =>
      rw [hr] at hf
      simp only [Completion.page] at hf
      simp [hf, showNotification]
  · rw [hbody, fetchInitialData_body]
    split <;> simp

end Dashboard
